import Mathlib

/-!
RFID tag scanner: the presence debouncer of the PN5180 reader.

A shallow embedding of `src/nfc_reader.cpp` (the statics of the module, `initNFCReader`,
`setTagCallback`, `processNFCReader`), of the display state and change detection of
`display.cpp` and of `publishTag` and `mqttCallback` of `mqtt_handler.cpp`, together with
the properties that are checked against them.

Conventions of the embedding

* `unsigned long` and `uint32_t` are 32 bits wide on the ESP32: they are natural numbers
  with every operation reduced modulo `2^32` (`sub32`, `inc32`).
* `int consecutiveReads` is an integer; its increment wraps in two's complement
  (`wrapInt32`).
* The Arduino `String` is a Lean `String`.
* The two pointers `nfc` and `tagCallback` are booleans telling whether the pointer is
  non-null; an invocation of the callback is recorded as a `TagEvent` in the list a call
  returns.  `Serial` output is not modelled.
* `millis()` and the result of `nfc->getInventory(uid)` are inputs of a call.
-/

namespace RFIDTagScanner

/-! ## Machine arithmetic -/

/-- The modulus of a 32-bit machine word. -/
def U32 : Nat := 4294967296

/-- Subtraction of two `unsigned long` values, `a - b`. -/
def sub32 (a b : Nat) : Nat := (a % U32 + U32 - b % U32) % U32

/-- Increment of an `uint32_t`, `a++`. -/
def inc32 (a : Nat) : Nat := (a + 1) % U32

/-- Reduction of an integer to the range of a 32-bit `int` (two's complement). -/
def wrapInt32 (x : Int) : Int := (x + 2147483648) % 4294967296 - 2147483648

/-! ## Constants -/

/-- The macro `SCAN_INTERVAL` of `nfc_reader.h`. -/
def SCAN_INTERVAL : Nat := 250

/-- The macro `REQUIRED_CONSECUTIVE_READS`. -/
def REQUIRED_CONSECUTIVE_READS : Int := 2

/-- The macro `TAG_TIMEOUT`. -/
def TAG_TIMEOUT : Nat := 1000

/-- The enumerator `ISO15693_EC_OK` of the PN5180 library header (the library is an
external dependency; its enumeration gives the value 0 to `ISO15693_EC_OK`). -/
def ISO15693_EC_OK : Int := 0

/-! ## Data -/

/-- An `uint8_t`. -/
abbrev Byte := Fin 256

/-- The buffer `uint8_t uid[8]`. -/
abbrev UidBuf := Fin 8 → Byte

/-- The struct `NFCStatus` of `nfc_reader.h`. -/
structure NFCStatus where
  initialized : Bool
  rfActive : Bool
  productVersion : Nat
  totalScans : Nat
  successfulReads : Nat
  failedReads : Nat
  lastSuccessTime : Nat
  lastError : String
deriving DecidableEq, Repr

/-- The module-level statics of `nfc_reader.cpp`. -/
structure ReaderState where
  /-- Whether `nfc != nullptr`. -/
  nfc : Bool
  readerInitialized : Bool
  nfcStatus : NFCStatus
  /-- Whether `tagCallback != nullptr`. -/
  tagCallback : Bool
  lastUID : String
  tagPresent : Bool
  lastTagTime : Nat
  lastScanTime : Nat
  pendingUID : String
  consecutiveReads : Int
deriving DecidableEq, Repr

/-- One invocation `tagCallback(uid, present)`. -/
abbrev TagEvent := String × Bool

/-- What `nfc->getInventory(uid)` produced: the return code and the content of `uid`
after the call. -/
structure Inventory where
  rc : Int
  uid : UidBuf

/-- The initial values of the statics. -/
def initialState : ReaderState :=
  { nfc := false
    readerInitialized := false
    nfcStatus :=
      { initialized := false, rfActive := false, productVersion := 0, totalScans := 0,
        successfulReads := 0, failedReads := 0, lastSuccessTime := 0,
        lastError := "Not initialized" }
    tagCallback := false
    lastUID := ""
    tagPresent := false
    lastTagTime := 0
    lastScanTime := 0
    pendingUID := ""
    consecutiveReads := 0 }

/-! ## `initNFCReader` and `setTagCallback` -/

/-- The function `initNFCReader`; `productVersion` is what `readEEprom` stored and `setupRF`
the result of `nfc->setupRF()`. -/
def initNFCReader (s : ReaderState) (productVersion : Fin 2 → Byte) (setupRF : Bool) :
    ReaderState × Bool :=
  let s := { s with nfc := true }
  if productVersion 1 = 0xFF ∧ productVersion 0 = 0xFF then
    ({ s with nfcStatus := { s.nfcStatus with
          lastError := "No SPI communication", initialized := false, rfActive := false } },
      false)
  else
    let s := { s with nfcStatus := { s.nfcStatus with
          productVersion := ((productVersion 1).val * 10 + (productVersion 0).val) % 256 } }
    if !setupRF then
      ({ s with nfcStatus := { s.nfcStatus with
            lastError := "setupRF failed", initialized := false, rfActive := false } },
        false)
    else
      ({ s with
          nfcStatus := { s.nfcStatus with
            rfActive := true, initialized := true, lastError := "Scanning..." }
          readerInitialized := true },
        true)

/-- The function `setTagCallback`, called with a non-null function pointer. -/
def setTagCallback (s : ReaderState) : ReaderState :=
  { s with tagCallback := true }

/-! ## `processNFCReader` -/

/-- The validity loop of `processNFCReader` (lines 107-117): the final values of
`validUID`, `allZeros` and `allFF`. -/
def checkUID (uid : UidBuf) : Bool × Bool × Bool :=
  ([0, 1, 2, 3, 4, 5, 6, 7] : List (Fin 8)).foldl
    (fun st i =>
      let validUID := st.1
      let allZeros := st.2.1
      let allFF := st.2.2
      let allZeros := if uid i ≠ 0x00 then false else allZeros
      let allFF := if uid i ≠ 0xFF then false else allFF
      let validUID := if uid i ≠ 0x00 ∧ uid i ≠ 0xFF then true else validUID
      (validUID, allZeros, allFF))
    (false, true, true)

/-- The condition `allZeros || allFF || !validUID` of line 119. -/
def invalidUID (uid : UidBuf) : Bool :=
  let st := checkUID uid
  st.2.1 || st.2.2 || !st.1

/-- A digit of `utoa` (digits `0-9a-z`), for a digit value below 16. -/
def hexDigit (d : Nat) : Char :=
  if d < 10 then Char.ofNat (48 + d) else Char.ofNat (87 + d)

/-- The Arduino constructor `String(uid[i], HEX)` on an `uint8_t`: the value in base 16,
lower case, without leading zero. -/
def stringHEX (b : Byte) : String :=
  if b.val < 16 then String.mk [hexDigit b.val]
  else String.mk [hexDigit (b.val / 16), hexDigit (b.val % 16)]

/-- The Arduino method `String::toUpperCase`. -/
def toUpperCase (s : String) : String := String.mk (s.data.map Char.toUpper)

/-- The identifier string built at lines 143-149, `uidStr`. -/
def formatUID (uid : UidBuf) : String :=
  toUpperCase
    (([7, 6, 5, 4, 3, 2, 1, 0] : List (Fin 8)).foldl
      (fun uidStr i =>
        let uidStr := if (uid i).val < 0x10 then uidStr ++ "0" else uidStr
        uidStr ++ stringHEX (uid i))
      "")

/-- The invocation `if (tagCallback) tagCallback(uid, present)`. -/
def invoke (s : ReaderState) (uid : String) (present : Bool) : List TagEvent :=
  if s.tagCallback then [(uid, present)] else []

/-- The tag-removal block, which the source has twice with the same effect: lines 127-135
(before the early return of the invalid-UID branch) and lines 223-237 (end of the
function). -/
def tagRemoval (s : ReaderState) (now : Nat) : ReaderState × List TagEvent :=
  if s.tagPresent && decide (sub32 now s.lastTagTime > TAG_TIMEOUT) then
    ({ s with
        tagPresent := false
        nfcStatus := { s.nfcStatus with lastError := "Scanning..." }
        lastUID := "" },
      invoke s s.lastUID false)
  else (s, [])

/-- The branch of a valid read, lines 139-207, with the removal check of lines 222-237 that
follows it when the branch does not return early. -/
def validRead (s : ReaderState) (now : Nat) (uid : UidBuf) : ReaderState × List TagEvent :=
  let s := { s with nfcStatus := { s.nfcStatus with
        successfulReads := inc32 s.nfcStatus.successfulReads, lastSuccessTime := now } }
  let uidStr := formatUID uid
  let s :=
    if uidStr = s.pendingUID then
      { s with consecutiveReads := wrapInt32 (s.consecutiveReads + 1) }
    else
      { s with pendingUID := uidStr, consecutiveReads := 1 }
  if s.consecutiveReads < REQUIRED_CONSECUTIVE_READS then (s, [])
  else
    let r : ReaderState × List TagEvent :=
      if uidStr ≠ s.lastUID then
        ({ s with
            lastUID := uidStr
            tagPresent := true
            lastTagTime := now
            nfcStatus := { s.nfcStatus with lastError := "Tag present" } },
          invoke s uidStr true)
      else if !s.tagPresent then
        ({ s with tagPresent := true, lastTagTime := now }, invoke s uidStr true)
      else
        ({ s with lastTagTime := now }, invoke s uidStr true)
    let r2 := tagRemoval r.1 now
    (r2.1, r.2 ++ r2.2)

/-- The body of `processNFCReader` after the scan-interval gate, lines 97-237. -/
def scanTick (s : ReaderState) (now : Nat) (inv : Inventory) : ReaderState × List TagEvent :=
  let s := { s with
      lastScanTime := now
      nfcStatus := { s.nfcStatus with totalScans := inc32 s.nfcStatus.totalScans } }
  if inv.rc = ISO15693_EC_OK then
    if invalidUID inv.uid then
      let s := { s with
          nfcStatus := { s.nfcStatus with failedReads := inc32 s.nfcStatus.failedReads }
          consecutiveReads := 0
          pendingUID := "" }
      tagRemoval s now
    else validRead s now inv.uid
  else
    let s :=
      if inv.rc ≠ 0x01 then
        let s := { s with
            nfcStatus := { s.nfcStatus with failedReads := inc32 s.nfcStatus.failedReads }
            consecutiveReads := 0
            pendingUID := "" }
        if s.nfcStatus.successfulReads > 0 ∨ s.nfcStatus.totalScans > 10 then
          { s with nfcStatus := { s.nfcStatus with lastError := "No tag in range" } }
        else s
      else s
    tagRemoval s now

/-- The function `processNFCReader`; `now` is the value of `millis()` and `inv` what
`getInventory` returns if the call gets to it. -/
def processNFCReader (s : ReaderState) (now : Nat) (inv : Inventory) :
    ReaderState × List TagEvent :=
  if !s.readerInitialized || !s.nfc then (s, [])
  else if sub32 now s.lastScanTime < SCAN_INTERVAL then (s, [])
  else scanTick s now inv

/-- A call of `processNFCReader` is a scan tick when it passes both early returns. -/
def isScanTick (s : ReaderState) (now : Nat) : Prop :=
  s.readerInitialized = true ∧ s.nfc = true ∧ SCAN_INTERVAL ≤ sub32 now s.lastScanTime

instance (s : ReaderState) (now : Nat) : Decidable (isScanTick s now) := by
  unfold isScanTick; infer_instance

/-- Successive calls of `processNFCReader`, with the callback invocations of each call. -/
def runCalls (s : ReaderState) : List (Nat × Inventory) → ReaderState × List (List TagEvent)
  | [] => (s, [])
  | (now, inv) :: rest =>
    let r := processNFCReader s now inv
    let r2 := runCalls r.1 rest
    (r2.1, r.2 :: r2.2)

/-! ## Inputs used in the examples -/

/-- The return value `0x01`, which the source takes as the normal "no tag" answer. -/
def noTag : Inventory := { rc := 0x01, uid := fun _ => 0 }

/-- A read that returns `ISO15693_EC_OK` with the given buffer. -/
def okRead (uid : UidBuf) : Inventory := { rc := ISO15693_EC_OK, uid := uid }

/-- The bytes of the tag whose identifier is `ABCD1234ABCD1234` (`uid[7]` is printed
first). -/
def uidABCD : UidBuf := ![0x34, 0x12, 0xCD, 0xAB, 0x34, 0x12, 0xCD, 0xAB]

/-- The bytes of a second tag, `E004010012345678`. -/
def uidE004 : UidBuf := ![0x78, 0x56, 0x34, 0x12, 0x00, 0x01, 0x04, 0xE0]

/-- The all-zero buffer. -/
def uidZeros : UidBuf := fun _ => 0x00

/-- The all-ones buffer. -/
def uidFF : UidBuf := fun _ => 0xFF

/-- An initialised reader with a registered callback, in its initial state. -/
def readyState : ReaderState :=
  setTagCallback (initNFCReader initialState ![0x00, 0x04] true).1

/-! ## Predicates used in the statements -/

/-- The two upper-case hexadecimal digits of a byte. -/
def byteHex (b : Byte) : List Char :=
  [Char.toUpper (hexDigit (b.val / 16)), Char.toUpper (hexDigit (b.val % 16))]

/-- A read that shows no tag: a return code other than `ISO15693_EC_OK` (the code `0x01`
or an error code), or `ISO15693_EC_OK` with a buffer that line 119 rejects. -/
def silentRead (inv : Inventory) : Prop :=
  inv.rc ≠ ISO15693_EC_OK ∨ invalidUID inv.uid = true

instance (inv : Inventory) : Decidable (silentRead inv) := by
  unfold silentRead; infer_instance

/-- A sentinel buffer: all eight bytes `0x00`, or all eight bytes `0xFF`. -/
def sentinelUID (uid : UidBuf) : Prop :=
  (∀ i, uid i = 0x00) ∨ (∀ i, uid i = 0xFF)

/-- An initialised reader with a callback, no tag present and nothing pending. -/
def Idle (s : ReaderState) : Prop :=
  s.readerInitialized = true ∧ s.nfc = true ∧ s.tagCallback = true ∧
    s.tagPresent = false ∧ s.lastUID = "" ∧ s.pendingUID = "" ∧ s.consecutiveReads = 0

instance (s : ReaderState) : Decidable (Idle s) := by
  unfold Idle; infer_instance

/-- An initialised reader with a callback on which the tag `U` is confirmed present, last
seen at `t0`. -/
def Present (s : ReaderState) (U : String) (t0 : Nat) : Prop :=
  s.readerInitialized = true ∧ s.nfc = true ∧ s.tagCallback = true ∧
    s.tagPresent = true ∧ s.lastUID = U ∧ s.lastTagTime = t0

instance (s : ReaderState) (U : String) (t0 : Nat) : Decidable (Present s U t0) := by
  unfold Present; infer_instance

/-- Every call of the sequence is a scan tick. -/
def allScanTicks (s : ReaderState) : List (Nat × Inventory) → Prop
  | [] => True
  | (now, inv) :: rest =>
    isScanTick s now ∧ allScanTicks (processNFCReader s now inv).1 rest

instance decAllScanTicks (s : ReaderState) (l : List (Nat × Inventory)) :
    Decidable (allScanTicks s l) := by
  induction l generalizing s with
  | nil => unfold allScanTicks; infer_instance
  | cons c rest ih =>
    obtain ⟨now, inv⟩ := c
    unfold allScanTicks
    exact @instDecidableAnd _ _ _ (ih _)

/-- The call loses the tag: `tagPresent` goes from true to false, or the callback is
invoked with `present = false`. -/
def losesTag (s : ReaderState) (r : ReaderState × List TagEvent) : Prop :=
  (s.tagPresent = true ∧ r.1.tagPresent = false) ∨ ∃ e ∈ r.2, e.2 = false

instance (s : ReaderState) (r : ReaderState × List TagEvent) : Decidable (losesTag s r) := by
  unfold losesTag; infer_instance

/-- What every scan tick does to the fields that no branch writes, and to `lastScanTime`. -/
def Frame (s s' : ReaderState) (now : Nat) : Prop :=
  s'.readerInitialized = s.readerInitialized ∧ s'.nfc = s.nfc ∧
    s'.tagCallback = s.tagCallback ∧ s'.lastScanTime = now

/-- The reader after one read of `ABCD1234ABCD1234` at 250 ms: that identifier is pending
with `consecutiveReads = 1`, no tag is confirmed. -/
def pendingABCD : ReaderState := (processNFCReader readyState 250 (okRead uidABCD)).1

/-- The reader on which `ABCD1234ABCD1234` was confirmed at 500 ms (reads at 250 ms and
500 ms). -/
def presentABCD : ReaderState :=
  (runCalls readyState [(250, okRead uidABCD), (500, okRead uidABCD)]).1

/-- An error answer of `getInventory`: a return code that is neither `ISO15693_EC_OK` nor
`0x01`. -/
def errorRead : Inventory := { rc := 0x02, uid := fun _ => 0 }

/-- The reader on which `ABCD1234ABCD1234` is confirmed (last seen at 500 ms) while
`E004010012345678` was read once at 750 ms and is pending. -/
def presentABCD_pendingE004 : ReaderState :=
  (runCalls readyState
    [(250, okRead uidABCD), (500, okRead uidABCD), (750, okRead uidE004)]).1

/-- The reader on which `ABCD1234ABCD1234` is confirmed (last seen at 500 ms) and the
tick at 750 ms got an error answer, so that nothing is pending. -/
def presentABCD_afterError : ReaderState :=
  (runCalls readyState [(250, okRead uidABCD), (500, okRead uidABCD), (750, errorRead)]).1

/-- The initialised reader with a registered callback whose `failedReads` counter has
reached the top of the `uint32_t` range, `2^32 - 1`. -/
def readyStateFailedMax : ReaderState :=
  { readyState with nfcStatus := { readyState.nfcStatus with failedReads := 4294967295 } }

/-! ## `display.cpp`: data

A `char` is a Lean `Char` (its code is the byte value) and a C string a `String`, one `Char`
per byte.  The display driver `tft` is outside the repository: a call of one of its methods
is recorded as a `TftCall`, and `updateDisplay` returns the list of what it did, helper
call by helper call (`DrawStep`).  `millis()`, the result of `getNFCStatus()` and the state
of `WiFi` are inputs. -/

/-- The struct `MqttMessage` of `display.h`. -/
structure MqttMessage where
  uid : String
  sensor : Byte
  direction : Char
  timestamp : Nat
deriving DecidableEq, Repr

/-- The statics of `display.cpp` (the display object `tft` apart). -/
structure Display where
  currentUID : String
  currentTagPresent : Bool
  mqttConnected : Bool
  prevUID : String
  prevTagPresent : Bool
  prevMqttConnected : Bool
  prevTotalScans : Nat
  prevSuccessfulReads : Nat
  prevFailedReads : Nat
  prevNfcInitialized : Bool
  displayInitialized : Bool
  mqttHistory : Fin 4 → MqttMessage
  mqttHistoryCount : Int
  mqttSequence : Nat
  prevMqttSequence : Nat
  mqttBroker : String
  mqttPort : Nat
  mqttTopic : String

/-- The initial values of the statics: the four records of `mqttHistory` are
zero-initialised with an empty `uid`. -/
def initialDisplay : Display :=
  { currentUID := ""
    currentTagPresent := false
    mqttConnected := false
    prevUID := ""
    prevTagPresent := false
    prevMqttConnected := false
    prevTotalScans := 0
    prevSuccessfulReads := 0
    prevFailedReads := 0
    prevNfcInitialized := false
    displayInitialized := false
    mqttHistory := fun _ => { uid := "", sensor := 0, direction := Char.ofNat 0, timestamp := 0 }
    mqttHistoryCount := 0
    mqttSequence := 0
    prevMqttSequence := 0
    mqttBroker := ""
    mqttPort := 1883
    mqttTopic := "" }

/-- The macro `COLOR_BLACK` of `display.h`. -/
def COLOR_BLACK : Nat := 0x0000
/-- The macro `COLOR_WHITE`. -/
def COLOR_WHITE : Nat := 0xFFFF
/-- The macro `COLOR_RED`. -/
def COLOR_RED : Nat := 0x001F
/-- The macro `COLOR_GREEN`. -/
def COLOR_GREEN : Nat := 0x07E0
/-- The macro `COLOR_CYAN`. -/
def COLOR_CYAN : Nat := 0xFFE0
/-- The macro `COLOR_YELLOW`. -/
def COLOR_YELLOW : Nat := 0x07FF
/-- The macro `COLOR_ORANGE`. -/
def COLOR_ORANGE : Nat := 0x051F

/-- One call of a method of the display object `tft`, with its arguments. -/
inductive TftCall where
  | fillScreen (color : Nat)
  | fillRect (x y w h : Int) (color : Nat)
  | drawLine (x0 y0 x1 y1 : Int) (color : Nat)
  | setCursor (x y : Int)
  | setTextSize (size : Nat)
  | setTextColor (color : Nat)
  /-- The call `tft.print(text)` on a string. -/
  | print (text : String)
  /-- The call `tft.println(text)` on a string. -/
  | println (text : String)
  /-- The call `tft.print(n)` on an unsigned integer. -/
  | printNumber (n : Nat)
  /-- The call `tft.print(productVersion / 10.0, 1)`. -/
  | printTenths (productVersion : Nat)
  /-- The call `tft.print(WiFi.localIP())`. -/
  | printIP (ip : Nat)
  /-- The call `tft.print(line)` after
  `snprintf(line, sizeof(line), "s:%d %s %c", sensor, uid, direction)`. -/
  | printHistoryLine (sensor : Byte) (uid : String) (direction : Char)
deriving DecidableEq, Repr

/-- What `updateDisplay` does, in order: a direct call of a `tft` method, or a call of one
of the four region helpers, with the `tft` calls the helper makes. -/
inductive DrawStep where
  | tft (call : TftCall)
  | updateLocalTagArea (calls : List TftCall)
  | updateMqttHistoryArea (calls : List TftCall)
  | updateScanStats (calls : List TftCall)
  | updateStatusArea (calls : List TftCall)
deriving DecidableEq, Repr

/-- The `tft` calls of a step. -/
def DrawStep.calls : DrawStep → List TftCall
  | .tft call => [call]
  | .updateLocalTagArea calls => calls
  | .updateMqttHistoryArea calls => calls
  | .updateScanStats calls => calls
  | .updateStatusArea calls => calls

/-- What `updateDisplay` reads from outside `display.cpp`: the result of `getNFCStatus()`,
whether `WiFi.status() == WL_CONNECTED`, and `WiFi.localIP()`. -/
structure DisplayEnv where
  status : NFCStatus
  wifiConnected : Bool
  localIP : Nat

/-- The function `getNFCStatus` of `nfc_reader.cpp`. -/
def getNFCStatus (s : ReaderState) : NFCStatus := s.nfcStatus

/-! ## `display.cpp`: operations -/

/-- The function `setMqttStatus`. -/
def setMqttStatus (d : Display) (connected : Bool) : Display :=
  { d with mqttConnected := connected }

/-- The function `setMqttConfig`. -/
def setMqttConfig (d : Display) (broker : String) (port : Nat) (topic : String) : Display :=
  { d with mqttBroker := broker, mqttPort := port, mqttTopic := topic }

/-- The function `addMqttMessage`; `now` is the value of `millis()`. The loop of lines
218-220 runs for `i = 3, 2, 1`. -/
def addMqttMessage (d : Display) (now : Nat) (uid : String) (sensor : Byte)
    (direction : Char) : Display :=
  let mqttHistory := ([3, 2, 1] : List (Fin 4)).foldl
    (fun h i => Function.update h i (h (i - 1))) d.mqttHistory
  let mqttHistory := Function.update mqttHistory 0
    { uid := uid, sensor := sensor, direction := direction, timestamp := now }
  let mqttHistoryCount :=
    if d.mqttHistoryCount < 4 then d.mqttHistoryCount + 1 else d.mqttHistoryCount
  { d with
    mqttHistory := mqttHistory
    mqttHistoryCount := mqttHistoryCount
    mqttSequence := inc32 d.mqttSequence }

/-- The function `getCurrentUID`. -/
def getCurrentUID (d : Display) : String := d.currentUID

/-- The function `getCurrentTagPresent`. -/
def getCurrentTagPresent (d : Display) : Bool := d.currentTagPresent

/-- The function `getMqttHistoryCount`. -/
def getMqttHistoryCount (d : Display) : Int := d.mqttHistoryCount

/-- The record `MqttMessage{"", 0, ' ', 0}` of line 256. -/
def emptyMessage : MqttMessage := { uid := "", sensor := 0, direction := ' ', timestamp := 0 }

/-- The function `getMqttHistoryItem`. An index that passes the test of line 253 is below
`mqttHistoryCount`, which no operation makes larger than 4; the model gives the record of
line 256 for an index of 4 or more, where the source would read past the array. -/
def getMqttHistoryItem (d : Display) (index : Int) : MqttMessage :=
  if 0 ≤ index ∧ index < d.mqttHistoryCount then
    if h : index.toNat < 4 then d.mqttHistory ⟨index.toNat, h⟩ else emptyMessage
  else emptyMessage

/-- The function `clearRegion`. -/
def clearRegion (x y width height : Int) : List TftCall :=
  [TftCall.fillRect x y width height COLOR_BLACK]

/-- The function `updateLocalTagArea`. -/
def updateLocalTagArea (d : Display) : List TftCall :=
  clearRegion 0 0 320 60 ++
  [TftCall.setCursor 0 2, TftCall.setTextSize 2] ++
  (if d.currentTagPresent = true ∧ d.currentUID.length > 0 ∧
      d.currentUID ≠ "0000000000000000" then
    [TftCall.setTextColor COLOR_GREEN, TftCall.println "Local Tag Read:",
      TftCall.setCursor 0 22, TftCall.setTextColor COLOR_CYAN, TftCall.setTextSize 2,
      TftCall.println (d.currentUID.take 16)]
  else
    [TftCall.setTextColor COLOR_ORANGE, TftCall.println "Scanning..."]) ++
  [TftCall.drawLine 0 60 320 60 COLOR_WHITE]

/-- The colour chosen at lines 304-312 for a direction code. -/
def directionColor (direction : Char) : Nat :=
  if direction = 'R' then COLOR_GREEN
  else if direction = 'C' then COLOR_YELLOW
  else if direction = 'U' then COLOR_RED
  else COLOR_WHITE

/-- The function `updateMqttHistoryArea`; the loop of lines 300-321 runs over the indices
below `displayCount`, with `y = 90 + 22 * i`. -/
def updateMqttHistoryArea (d : Display) : List TftCall :=
  let displayCount : Int := if d.mqttHistoryCount > 4 then 4 else d.mqttHistoryCount
  clearRegion 0 65 320 115 ++
  [TftCall.setCursor 0 65, TftCall.setTextSize 2, TftCall.setTextColor COLOR_YELLOW,
    TftCall.println "MQTT Broker:"] ++
  (([0, 1, 2, 3] : List (Fin 4)).filter (fun i => decide ((i.val : Int) < displayCount))).flatMap
    (fun i =>
      [TftCall.setCursor 0 (90 + 22 * (i.val : Int)), TftCall.setTextSize 2,
        TftCall.setTextColor (directionColor (d.mqttHistory i).direction),
        TftCall.printHistoryLine (d.mqttHistory i).sensor (d.mqttHistory i).uid
          (d.mqttHistory i).direction]) ++
  [TftCall.drawLine 0 180 320 180 COLOR_WHITE]

/-- The function `updateScanStats`. -/
def updateScanStats (status : NFCStatus) : List TftCall :=
  let statusY : Int := 205
  [TftCall.fillRect 50 statusY 40 8 COLOR_BLACK,
    TftCall.fillRect 120 statusY 60 8 COLOR_BLACK,
    TftCall.fillRect 222 statusY 100 8 COLOR_BLACK,
    TftCall.setTextSize 1,
    TftCall.setCursor 50 statusY, TftCall.setTextColor COLOR_GREEN,
    TftCall.printNumber status.totalScans,
    TftCall.setCursor 120 statusY, TftCall.setTextColor COLOR_GREEN,
    TftCall.printNumber status.successfulReads,
    TftCall.setCursor 222 statusY, TftCall.setTextColor COLOR_GREEN,
    TftCall.printNumber status.failedReads]

/-- The function `updateStatusArea`. -/
def updateStatusArea (d : Display) (env : DisplayEnv) : List TftCall :=
  let status := env.status
  clearRegion 0 185 320 55 ++
  [TftCall.setTextSize 1] ++
  -- Config line, statusY = 185
  [TftCall.setCursor 0 185, TftCall.setTextColor COLOR_WHITE, TftCall.print "Config",
    TftCall.setCursor 38 185, TftCall.print ": "] ++
  (if env.wifiConnected then
    [TftCall.setTextColor COLOR_YELLOW, TftCall.print "http://", TftCall.printIP env.localIP]
  else
    [TftCall.setTextColor COLOR_RED, TftCall.print "WiFi not connected"]) ++
  -- PN5180 status, statusY = 195
  [TftCall.setCursor 0 195, TftCall.setTextColor COLOR_WHITE, TftCall.print "PN5180",
    TftCall.setCursor 38 195, TftCall.print ": "] ++
  (if status.initialized then
    [TftCall.setTextColor COLOR_GREEN, TftCall.print "OK"]
  else
    [TftCall.setTextColor COLOR_RED, TftCall.print "FAIL"]) ++
  [TftCall.setTextColor COLOR_WHITE, TftCall.setCursor 90 195, TftCall.print "Ver",
    TftCall.setCursor 108 195, TftCall.print ": ", TftCall.setTextColor COLOR_GREEN,
    TftCall.printTenths status.productVersion,
    TftCall.setTextColor COLOR_WHITE, TftCall.setCursor 180 195, TftCall.print "Protocol",
    TftCall.setCursor 228 195, TftCall.print ": ", TftCall.setTextColor COLOR_GREEN,
    TftCall.print "ISO15693"] ++
  -- Scan statistics, statusY = 205
  [TftCall.setCursor 0 205, TftCall.setTextColor COLOR_WHITE, TftCall.print "Scans",
    TftCall.setCursor 38 205, TftCall.print ": ", TftCall.setCursor 50 205,
    TftCall.setTextColor COLOR_GREEN, TftCall.printNumber status.totalScans,
    TftCall.setTextColor COLOR_WHITE, TftCall.setCursor 96 205, TftCall.print "OK",
    TftCall.setCursor 108 205, TftCall.print ": ", TftCall.setCursor 120 205,
    TftCall.setTextColor COLOR_GREEN, TftCall.printNumber status.successfulReads,
    TftCall.setTextColor COLOR_WHITE, TftCall.setCursor 186 205, TftCall.print "Fail",
    TftCall.setCursor 210 205, TftCall.print ": ", TftCall.setCursor 222 205,
    TftCall.setTextColor COLOR_GREEN, TftCall.printNumber status.failedReads] ++
  -- MQTT status, statusY = 215
  [TftCall.setCursor 0 215, TftCall.setTextColor COLOR_WHITE, TftCall.print "MQTT",
    TftCall.setCursor 38 215, TftCall.print ": "] ++
  (if d.mqttConnected then
    [TftCall.setTextColor COLOR_GREEN, TftCall.print "Connected"]
  else
    [TftCall.setTextColor COLOR_RED, TftCall.print "Disconnected"]) ++
  (if d.mqttBroker.length > 0 then
    [TftCall.setTextColor COLOR_WHITE, TftCall.setCursor 150 215, TftCall.print "URL",
      TftCall.setCursor 168 215, TftCall.print ": ", TftCall.setTextColor COLOR_GREEN,
      TftCall.print d.mqttBroker, TftCall.print ":", TftCall.printNumber d.mqttPort]
  else []) ++
  -- Topic line, statusY = 225
  (if d.mqttTopic.length > 0 then
    [TftCall.setCursor 0 225, TftCall.setTextColor COLOR_WHITE, TftCall.print "Topic",
      TftCall.setCursor 38 225, TftCall.print ": ", TftCall.setTextColor COLOR_GREEN,
      TftCall.print d.mqttTopic]
  else [])

/-- The function `updateDisplay`. -/
def updateDisplay (d : Display) (env : DisplayEnv) : Display × List DrawStep :=
  let status := env.status
  if !d.displayInitialized then
    ({ d with
        displayInitialized := true
        prevUID := d.currentUID
        prevTagPresent := d.currentTagPresent
        prevMqttConnected := d.mqttConnected
        prevMqttSequence := d.mqttSequence
        prevTotalScans := status.totalScans
        prevSuccessfulReads := status.successfulReads
        prevFailedReads := status.failedReads
        prevNfcInitialized := status.initialized },
      [DrawStep.tft (TftCall.fillScreen COLOR_BLACK),
        DrawStep.updateLocalTagArea (updateLocalTagArea d),
        DrawStep.updateMqttHistoryArea (updateMqttHistoryArea d),
        DrawStep.updateStatusArea (updateStatusArea d env)])
  else
    let localTagChanged : Bool :=
      decide (d.currentUID ≠ d.prevUID) || decide (d.currentTagPresent ≠ d.prevTagPresent)
    let mqttHistoryChanged : Bool := decide (d.mqttSequence ≠ d.prevMqttSequence)
    let statsChanged : Bool :=
      decide (status.totalScans ≠ d.prevTotalScans) ||
      decide (status.successfulReads ≠ d.prevSuccessfulReads) ||
      decide (status.failedReads ≠ d.prevFailedReads)
    let mqttStatusChanged : Bool := decide (d.mqttConnected ≠ d.prevMqttConnected)
    let nfcStatusChanged : Bool := decide (status.initialized ≠ d.prevNfcInitialized)
    let r1 : Display × List DrawStep :=
      if localTagChanged then
        ({ d with prevUID := d.currentUID, prevTagPresent := d.currentTagPresent },
          [DrawStep.updateLocalTagArea (updateLocalTagArea d)])
      else (d, [])
    let r2 : Display × List DrawStep :=
      if mqttHistoryChanged then
        ({ r1.1 with prevMqttSequence := r1.1.mqttSequence },
          r1.2 ++ [DrawStep.updateMqttHistoryArea (updateMqttHistoryArea r1.1)])
      else r1
    if statsChanged && !mqttStatusChanged && !nfcStatusChanged then
      ({ r2.1 with
          prevTotalScans := status.totalScans
          prevSuccessfulReads := status.successfulReads
          prevFailedReads := status.failedReads },
        r2.2 ++ [DrawStep.updateScanStats (updateScanStats status)])
    else if statsChanged || mqttStatusChanged || nfcStatusChanged then
      ({ r2.1 with
          prevTotalScans := status.totalScans
          prevSuccessfulReads := status.successfulReads
          prevFailedReads := status.failedReads
          prevMqttConnected := r2.1.mqttConnected
          prevNfcInitialized := status.initialized },
        r2.2 ++ [DrawStep.updateStatusArea (updateStatusArea r2.1 env)])
    else r2

/-- The function `displayTag`. -/
def displayTag (d : Display) (env : DisplayEnv) (uid : String) (present : Bool) :
    Display × List DrawStep :=
  updateDisplay { d with currentUID := uid, currentTagPresent := present } env

/-! ## `mqtt_handler.cpp`

The MQTT client (`PubSubClient`) and the JSON library (`ArduinoJson`) are outside the
repository.  Whether the client is connected and whether it accepts a publish are inputs
of `publishTag`; the document that `publishTag` hands to `serializeJson` is part of its
result; `mqttCallback` gets the payload as `deserializeJson` and the three member reads
decode it (`Parsed`). -/

/-- The struct `Config` of `mqtt_handler.cpp`, its `char` arrays as strings. -/
structure Config where
  wifi_ssid : String
  wifi_password : String
  mqtt_broker : String
  mqtt_port : Nat
  mqtt_base_topic : String
  mqtt_subscribe_topic : String
  sensor_id : Byte
deriving DecidableEq, Repr

/-- The statics of `mqtt_handler.cpp`: whether `mqttClient` is non-null, the structure
`config` points to (`none` for a null pointer), and `mqttPublished`. -/
structure MqttHandler where
  mqttClient : Bool
  config : Option Config
  mqttPublished : Nat
deriving DecidableEq, Repr

/-- The statics of the display module and of the MQTT handler together. -/
structure System where
  display : Display
  mqtt : MqttHandler

/-- The JSON document that `publishTag` fills at lines 77-88: the members `u` and `s`, and
the member `R`, which is set for the three known events only. -/
structure TagDoc where
  u : String
  s : Byte
  R : Option String
deriving DecidableEq, Repr

/-- A call `mqttClient->publish(topic, payload)`, where `payload` is `serializeJson` of
`doc`, and the value the call returned. -/
structure Publication where
  topic : String
  doc : TagDoc
  accepted : Bool
deriving DecidableEq, Repr

/-- What `ArduinoJson` makes of an inbound payload at lines 110-121: whether
`deserializeJson` reported an error, and the values of `doc["u"]` as `const char*` (`none` for
a null pointer, which is what a missing member or one that is not a string gives), of
`doc["s"]` as `uint8_t`, and of `doc["R"]` as `const char*`. -/
structure Parsed where
  error : Bool
  u : Option String
  s : Byte
  R : Option String
deriving DecidableEq, Repr

/-- The initial values of the statics of `mqtt_handler.cpp`. -/
def initialMqttHandler : MqttHandler :=
  { mqttClient := false, config := none, mqttPublished := 0 }

/-- The function `initMqttHandler`, its effect on the statics; `client` tells whether the
pointer passed is non-null. -/
def initMqttHandler (m : MqttHandler) (client : Bool) (cfg : Option Config) : MqttHandler :=
  { m with mqttClient := client, config := cfg }

/-- The code that lines 82-88 store in the member `R`. -/
def eventCode (event : String) : Option String :=
  if event = "Read" then some "R"
  else if event = "Continuing" then some "C"
  else if event = "Unread" then some "U"
  else none

/-- The function `publishTag`; `connected` is the value of `mqttClient->connected()` and
`publishOk` the value that `mqttClient->publish` returns. -/
def publishTag (sys : System) (connected publishOk : Bool) (uid event : String) :
    System × Option Publication :=
  match sys.mqtt.mqttClient, sys.mqtt.config with
  | true, some config =>
    if !connected then (sys, none)
    else
      let topic := config.mqtt_base_topic ++ "/" ++ event
      let doc : TagDoc := { u := uid, s := config.sensor_id, R := eventCode event }
      if publishOk then
        ({ sys with mqtt := { sys.mqtt with mqttPublished := inc32 sys.mqtt.mqttPublished } },
          some { topic := topic, doc := doc, accepted := true })
      else (sys, some { topic := topic, doc := doc, accepted := false })
  | _, _ => (sys, none)

/-- The first character of a C string, `dirStr[0]`: the terminating NUL when the string is
empty. -/
def firstChar (s : String) : Char := s.data.headD (Char.ofNat 0)

/-- The function `mqttCallback`; `now` is the value of `millis()` and `p` what the JSON
library makes of the payload; the topic is only printed. -/
def mqttCallback (sys : System) (now : Nat) (_topic : String) (p : Parsed) : System :=
  if p.error then sys
  else
    match p.u, p.R with
    | some uid, some dirStr =>
      let direction := firstChar dirStr
      { sys with display := addMqttMessage sys.display now uid p.s direction }
    | _, _ => sys

/-- The function `getMqttPublishCount`. -/
def getMqttPublishCount (m : MqttHandler) : Nat := m.mqttPublished

/-- The function `reconnectMQTT`, its effect on the statics of the two modules;
`connected` is the value of `mqttClient->connected()` and `connectOk` the value that
`mqttClient->connect` returns. -/
def reconnectMQTT (sys : System) (connected connectOk : Bool) : System :=
  match sys.mqtt.mqttClient, sys.mqtt.config with
  | true, some _ =>
    if connected then sys
    else { sys with display := setMqttStatus sys.display connectOk }
  | _, _ => sys

/-! ## Sequences of operations of the display module -/

/-- An operation of the display module, with its arguments. -/
inductive DisplayOp where
  | addMqttMessage (now : Nat) (uid : String) (sensor : Byte) (direction : Char)
  | displayTag (env : DisplayEnv) (uid : String) (present : Bool)
  | setMqttStatus (connected : Bool)
  | setMqttConfig (broker : String) (port : Nat) (topic : String)
  | updateDisplay (env : DisplayEnv)
  | getCurrentUID
  | getCurrentTagPresent
  | getMqttHistoryCount
  | getMqttHistoryItem (index : Int)

/-- The state after an operation. -/
def applyOp (d : Display) : DisplayOp → Display
  | .addMqttMessage now uid sensor direction => addMqttMessage d now uid sensor direction
  | .displayTag env uid present => (displayTag d env uid present).1
  | .setMqttStatus connected => setMqttStatus d connected
  | .setMqttConfig broker port topic => setMqttConfig d broker port topic
  | .updateDisplay env => (updateDisplay d env).1
  | .getCurrentUID => d
  | .getCurrentTagPresent => d
  | .getMqttHistoryCount => d
  | .getMqttHistoryItem _ => d

/-- Whether the operation is a call of `addMqttMessage`. -/
def isInsertion : DisplayOp → Bool
  | .addMqttMessage _ _ _ _ => true
  | _ => false

/-- The state after a sequence of operations. -/
def runOps (d : Display) (ops : List DisplayOp) : Display :=
  ops.foldl applyOp d

/-- The number of calls of `addMqttMessage` in a sequence of operations. -/
def insertions (ops : List DisplayOp) : Nat :=
  (ops.filter isInsertion).length

/-- An inserted message: the value of `millis()` at the call of `addMqttMessage` and its
three arguments. -/
structure Insertion where
  now : Nat
  uid : String
  sensor : Byte
  direction : Char
deriving DecidableEq, Repr

/-- The record that `addMqttMessage` writes for an insertion. -/
def Insertion.record (m : Insertion) : MqttMessage :=
  { uid := m.uid, sensor := m.sensor, direction := m.direction, timestamp := m.now }

/-- Successive calls of `addMqttMessage`. -/
def insertAll (d : Display) (msgs : List Insertion) : Display :=
  msgs.foldl (fun d m => addMqttMessage d m.now m.uid m.sensor m.direction) d

/-- Successive calls of `mqttCallback`, each with the value of `millis()`, the topic and
what the JSON library makes of the payload. -/
def runCallbacks (sys : System) (calls : List (Nat × String × Parsed)) : System :=
  calls.foldl (fun sys c => mqttCallback sys c.1 c.2.1 c.2.2) sys

/-- The display and the MQTT handler in their initial state. -/
def initialSystem : System := { display := initialDisplay, mqtt := initialMqttHandler }

/-! ## Predicates and inputs for the display and the MQTT handler -/

/-- The state in which `updateDisplay` finds nothing to draw for the reader status
`status`: the display has been drawn once and every `prev` field equals the value it
tracks. -/
def Synced (d : Display) (status : NFCStatus) : Prop :=
  d.displayInitialized = true ∧ d.prevUID = d.currentUID ∧
    d.prevTagPresent = d.currentTagPresent ∧ d.prevMqttSequence = d.mqttSequence ∧
    d.prevMqttConnected = d.mqttConnected ∧ d.prevTotalScans = status.totalScans ∧
    d.prevSuccessfulReads = status.successfulReads ∧ d.prevFailedReads = status.failedReads ∧
    d.prevNfcInitialized = status.initialized

/-- A reader status for the examples: 12 scans, 3 good reads, 2 failed ones. -/
def statusA : NFCStatus :=
  { initialized := true, rfActive := true, productVersion := 40, totalScans := 12,
    successfulReads := 3, failedReads := 2, lastSuccessTime := 2500,
    lastError := "Scanning..." }

/-- The reader status `statusA` one failed scan later. -/
def statusB : NFCStatus :=
  { statusA with totalScans := 13, failedReads := 3 }

/-- The inputs of `updateDisplay` with the reader status `statusA`. -/
def envA : DisplayEnv := { status := statusA, wifiConnected := true, localIP := 3232235777 }

/-- The inputs of `updateDisplay` with the reader status `statusB`. -/
def envB : DisplayEnv := { status := statusB, wifiConnected := true, localIP := 3232235777 }

/-- The display after `setMqttConfig` and a first `updateDisplay` with `envA`. -/
def drawnDisplay : Display :=
  (updateDisplay (setMqttConfig initialDisplay "192.168.1.10" 1883 "rfid/in") envA).1

/-- Whether a step is a call of `updateStatusArea`. -/
def DrawStep.isStatusArea : DrawStep → Bool
  | .updateStatusArea _ => true
  | _ => false

/-- Whether a step is a call of `updateScanStats`. -/
def DrawStep.isScanStats : DrawStep → Bool
  | .updateScanStats _ => true
  | _ => false

/-- A configuration for the examples: sensor 7, base topic `rfid`. -/
def exampleConfig : Config :=
  { wifi_ssid := "lab", wifi_password := "secret", mqtt_broker := "192.168.1.10",
    mqtt_port := 1883, mqtt_base_topic := "rfid", mqtt_subscribe_topic := "rfid/#",
    sensor_id := 7 }

/-- The two modules after `initMqttHandler` with a client and `exampleConfig`. -/
def readySystem : System :=
  { display := initialDisplay
    mqtt := initMqttHandler initialMqttHandler true (some exampleConfig) }

/-- What the JSON library makes of the document `doc` once it has been serialised and
parsed back without loss. -/
def Parsed.ofDoc (doc : TagDoc) : Parsed :=
  { error := false, u := some doc.u, s := doc.s, R := doc.R }

/-- The payload text of the document `u = ABCD1234ABCD1234`, `s = 7`, `R = R`. -/
def examplePayload : String :=
  "\x7b\"u\":\"ABCD1234ABCD1234\",\"s\":7,\"R\":\"R\"\x7d"

/-- A stand-in for `serializeJson` that knows the document of `examplePayload`. -/
def exampleSerializeJson (doc : TagDoc) : String :=
  if doc = { u := "ABCD1234ABCD1234", s := 7, R := some "R" } then examplePayload else ""

/-- A stand-in for `deserializeJson` and the member reads that knows `examplePayload`. -/
def exampleDeserializeJson (payload : String) : Parsed :=
  if payload = examplePayload then
    { error := false, u := some "ABCD1234ABCD1234", s := 7, R := some "R" }
  else { error := true, u := none, s := 0, R := none }

/-- The invariant of the history for a property `P` of direction codes: the count is
between 0 and 4 and the direction of every record held has `P`. -/
def HistoryInv (P : Char → Prop) (d : Display) : Prop :=
  0 ≤ d.mqttHistoryCount ∧ d.mqttHistoryCount ≤ 4 ∧
    ∀ i : Fin 4, (i.val : Int) < d.mqttHistoryCount → P (d.mqttHistory i).direction

/-- The payload is one that `mqttCallback` accepts, with `r` as its string `R`. -/
def accepts (p : Parsed) (r : String) : Prop :=
  p.error = false ∧ p.u ≠ none ∧ p.R = some r

/-! ## Rendered regions, hexadecimal digits and sequences of reader operations -/

/-- Whether a step is a call of `updateLocalTagArea`. -/
def DrawStep.isLocalTagArea : DrawStep → Bool
  | .updateLocalTagArea _ => true
  | _ => false

/-- Whether a step is a call of `updateMqttHistoryArea`. -/
def DrawStep.isMqttHistoryArea : DrawStep → Bool
  | .updateMqttHistoryArea _ => true
  | _ => false

/-- The display `drawnDisplay` once a tag has been handed over (the assignments of
`displayTag`, before its call of `updateDisplay`). -/
def drawnDisplayWithTag : Display :=
  { drawnDisplay with currentUID := "ABCD1234ABCD1234", currentTagPresent := true }

/-- The characters `0`-`9` and `A`-`F`, in the order of their values. -/
def hexChars : List Char := "0123456789ABCDEF".data

/-- The upper-case hexadecimal digit of a value below 16: `0` to `9`, then `A` to `F`. -/
def upperHexDigit (d : Nat) : Char := hexChars.getD d '0'

/-- An operation of the reader module, with its inputs. -/
inductive ReaderOp where
  | initNFCReader (productVersion : Fin 2 → Byte) (setupRF : Bool)
  | setTagCallback
  | processNFCReader (now : Nat) (inv : Inventory)

/-- The state after an operation of the reader module. -/
def applyReaderOp (s : ReaderState) : ReaderOp → ReaderState
  | .initNFCReader productVersion setupRF => (initNFCReader s productVersion setupRF).1
  | .setTagCallback => setTagCallback s
  | .processNFCReader now inv => (processNFCReader s now inv).1

/-- The state after a sequence of operations of the reader module. -/
def runReaderOps (s : ReaderState) (ops : List ReaderOp) : ReaderState :=
  ops.foldl applyReaderOp s

/-- The relation between `tagPresent` and `lastUID`: a tag is present and `lastUID` is the
identifier of a valid UID, or no tag is present and `lastUID` is empty. -/
def PresenceInv (s : ReaderState) : Prop :=
  (s.tagPresent = true ∧ ∃ uid, invalidUID uid = false ∧ s.lastUID = formatUID uid) ∨
    (s.tagPresent = false ∧ s.lastUID = "")

/-- The call reaches the branch of lines 187-198 ("same tag returning after timeout"): it
is a scan tick with a valid read that passes the test of line 161, with
`uidStr == lastUID` and `tagPresent` false. -/
def takesReturnBranch (s : ReaderState) (now : Nat) (inv : Inventory) : Prop :=
  isScanTick s now ∧ inv.rc = ISO15693_EC_OK ∧ invalidUID inv.uid = false ∧
    ¬ ((if formatUID inv.uid = s.pendingUID then wrapInt32 (s.consecutiveReads + 1) else 1)
        < REQUIRED_CONSECUTIVE_READS) ∧
    formatUID inv.uid = s.lastUID ∧ s.tagPresent = false

/-! ## The identifier string -/


theorem stringHEX_step (acc : String) (b : Byte) :
    (if b.val < 0x10 then acc ++ "0" else acc) ++ stringHEX b
      = acc ++ String.mk [hexDigit (b.val / 16), hexDigit (b.val % 16)] := by
  unfold stringHEX
  by_cases h : b.val < 16
  · have h1 : b.val / 16 = 0 := by omega
    have h2 : b.val % 16 = b.val := by omega
    simp only [h, if_true, h1, h2]
    apply String.ext
    simp [hexDigit]
  · simp only [h, if_false]

theorem formatUID_data (uid : UidBuf) :
    (formatUID uid).data =
      byteHex (uid 7) ++ byteHex (uid 6) ++ byteHex (uid 5) ++ byteHex (uid 4) ++
      byteHex (uid 3) ++ byteHex (uid 2) ++ byteHex (uid 1) ++ byteHex (uid 0) := by
  unfold formatUID
  simp only [List.foldl, stringHEX_step]
  simp [toUpperCase, byteHex]

theorem formatUID_length (uid : UidBuf) : (formatUID uid).length = 16 := by
  simp [String.length, formatUID_data, byteHex]

theorem formatUID_ne_empty (uid : UidBuf) : formatUID uid ≠ "" := by
  intro h
  have := formatUID_length uid
  rw [h] at this
  simp at this

theorem hexDigit_upper_inj : ∀ a b : Fin 16,
    Char.toUpper (hexDigit a.val) = Char.toUpper (hexDigit b.val) → a = b := by
  decide

theorem byteHex_inj (a b : Byte) (h : byteHex a = byteHex b) : a = b := by
  simp only [byteHex, List.cons.injEq, and_true] at h
  have h1 := hexDigit_upper_inj ⟨a.val / 16, by omega⟩ ⟨b.val / 16, by omega⟩ h.1
  have h2 := hexDigit_upper_inj ⟨a.val % 16, by omega⟩ ⟨b.val % 16, by omega⟩ h.2
  simp only [Fin.mk.injEq] at h1 h2
  apply Fin.ext
  omega

theorem formatUID_injective (a b : UidBuf) (h : formatUID a = formatUID b) : a = b := by
  have hd : (formatUID a).data = (formatUID b).data := by rw [h]
  rw [formatUID_data, formatUID_data] at hd
  simp only [byteHex, List.cons_append, List.nil_append, List.cons.injEq, and_true] at hd
  obtain ⟨a1, a2, b1, b2, c1, c2, d1, d2, e1, e2, f1, f2, g1, g2, h1, h2⟩ := hd
  funext i
  have key : ∀ x y : Byte, Char.toUpper (hexDigit (x.val / 16)) = Char.toUpper (hexDigit (y.val / 16)) →
      Char.toUpper (hexDigit (x.val % 16)) = Char.toUpper (hexDigit (y.val % 16)) → x = y := by
    intro x y p q
    apply byteHex_inj
    simp [byteHex, p, q]
  fin_cases i
  · exact key _ _ h1 h2
  · exact key _ _ g1 g2
  · exact key _ _ f1 f2
  · exact key _ _ e1 e2
  · exact key _ _ d1 d2
  · exact key _ _ c1 c2
  · exact key _ _ b1 b2
  · exact key _ _ a1 a2


/-! ## One call of `processNFCReader`, case by case -/


theorem sub32_self (now : Nat) : sub32 now now = 0 := by
  unfold sub32 U32; omega

theorem processNFCReader_of_isScanTick (s : ReaderState) (now : Nat) (inv : Inventory)
    (h : isScanTick s now) : processNFCReader s now inv = scanTick s now inv := by
  obtain ⟨h1, h2, h3⟩ := h
  unfold processNFCReader
  simp [h1, h2, Nat.not_lt.mpr h3]

theorem scanTick_pending (s : ReaderState) (now : Nat) (uid : UidBuf)
    (hv : invalidUID uid = false) (hne : formatUID uid ≠ s.pendingUID) :
    scanTick s now (okRead uid) =
      ({ s with
          lastScanTime := now
          nfcStatus := { s.nfcStatus with
            totalScans := inc32 s.nfcStatus.totalScans
            successfulReads := inc32 s.nfcStatus.successfulReads
            lastSuccessTime := now }
          pendingUID := formatUID uid
          consecutiveReads := 1 }, []) := by
  simp [scanTick, okRead, hv, validRead, hne, REQUIRED_CONSECUTIVE_READS]

theorem wrapInt32_succ (c : Int) (h1 : 1 ≤ c) (h2 : c < 2147483647) :
    wrapInt32 (c + 1) = c + 1 := by
  unfold wrapInt32; omega

theorem scanTick_confirm (s : ReaderState) (now : Nat) (uid : UidBuf)
    (hv : invalidUID uid = false) (heq : formatUID uid = s.pendingUID)
    (h1 : 1 ≤ s.consecutiveReads) (h2 : s.consecutiveReads < 2147483647)
    (hnew : formatUID uid ≠ s.lastUID) :
    scanTick s now (okRead uid) =
      ({ s with
          lastScanTime := now
          nfcStatus := { s.nfcStatus with
            totalScans := inc32 s.nfcStatus.totalScans
            successfulReads := inc32 s.nfcStatus.successfulReads
            lastSuccessTime := now
            lastError := "Tag present" }
          consecutiveReads := s.consecutiveReads + 1
          lastUID := formatUID uid
          tagPresent := true
          lastTagTime := now }, invoke s (formatUID uid) true) := by
  have hlt : ¬ (s.consecutiveReads + 1 < 2) := by omega
  simp [scanTick, okRead, hv, validRead, heq.symm, REQUIRED_CONSECUTIVE_READS,
    wrapInt32_succ _ h1 h2, hlt, hnew, tagRemoval, sub32_self, TAG_TIMEOUT, invoke]

theorem scanTick_refresh (s : ReaderState) (now : Nat) (uid : UidBuf)
    (hv : invalidUID uid = false) (heq : formatUID uid = s.pendingUID)
    (h1 : 1 ≤ s.consecutiveReads) (h2 : s.consecutiveReads < 2147483647)
    (hsame : formatUID uid = s.lastUID) (hp : s.tagPresent = true) :
    scanTick s now (okRead uid) =
      ({ s with
          lastScanTime := now
          nfcStatus := { s.nfcStatus with
            totalScans := inc32 s.nfcStatus.totalScans
            successfulReads := inc32 s.nfcStatus.successfulReads
            lastSuccessTime := now }
          consecutiveReads := s.consecutiveReads + 1
          lastTagTime := now }, invoke s (formatUID uid) true) := by
  have hlt : ¬ (s.consecutiveReads + 1 < 2) := by omega
  simp [scanTick, okRead, hv, validRead, heq.symm, REQUIRED_CONSECUTIVE_READS,
    wrapInt32_succ _ h1 h2, hlt, hsame.symm, hp, tagRemoval, sub32_self, TAG_TIMEOUT, invoke]


theorem scanTick_return (s : ReaderState) (now : Nat) (uid : UidBuf)
    (hv : invalidUID uid = false) (heq : formatUID uid = s.pendingUID)
    (h1 : 1 ≤ s.consecutiveReads) (h2 : s.consecutiveReads < 2147483647)
    (hsame : formatUID uid = s.lastUID) (hp : s.tagPresent = false) :
    scanTick s now (okRead uid) =
      ({ s with
          lastScanTime := now
          nfcStatus := { s.nfcStatus with
            totalScans := inc32 s.nfcStatus.totalScans
            successfulReads := inc32 s.nfcStatus.successfulReads
            lastSuccessTime := now }
          consecutiveReads := s.consecutiveReads + 1
          tagPresent := true
          lastTagTime := now }, invoke s (formatUID uid) true) := by
  have hlt : ¬ (s.consecutiveReads + 1 < 2) := by omega
  simp [scanTick, okRead, hv, validRead, heq.symm, REQUIRED_CONSECUTIVE_READS,
    wrapInt32_succ _ h1 h2, hlt, hsame.symm, hp, tagRemoval, sub32_self, TAG_TIMEOUT, invoke]

theorem sentinel_invalid (uid : UidBuf) (h : sentinelUID uid) : invalidUID uid = true := by
  rcases h with h | h
  · simp [invalidUID, checkUID, List.foldl, h]
  · simp [invalidUID, checkUID, List.foldl, h]

theorem scanTick_silent_keep (s : ReaderState) (now : Nat) (inv : Inventory)
    (hs : silentRead inv)
    (hk : ¬ (s.tagPresent = true ∧ TAG_TIMEOUT < sub32 now s.lastTagTime)) :
    (scanTick s now inv).2 = [] ∧
    (scanTick s now inv).1.tagPresent = s.tagPresent ∧
    (scanTick s now inv).1.lastUID = s.lastUID ∧
    (scanTick s now inv).1.lastTagTime = s.lastTagTime ∧
    (scanTick s now inv).1.lastScanTime = now ∧
    (scanTick s now inv).1.readerInitialized = s.readerInitialized ∧
    (scanTick s now inv).1.nfc = s.nfc ∧
    (scanTick s now inv).1.tagCallback = s.tagCallback := by
  have hk2 : ¬ (s.tagPresent = true ∧ sub32 now s.lastTagTime > TAG_TIMEOUT) := hk
  unfold scanTick
  by_cases hrc : inv.rc = ISO15693_EC_OK
  · have hinv : invalidUID inv.uid = true := by
      rcases hs with h | h
      · exact absurd hrc h
      · exact h
    simp [hrc, hinv, tagRemoval, hk2]
  · by_cases h1 : inv.rc = 0x01
    · simp only [if_neg hrc]
      simp [h1, tagRemoval, hk2]
    · simp only [hrc, h1, if_false, ne_eq, not_false_eq_true, if_true]
      split <;> simp [tagRemoval, hk2]

theorem scanTick_silent_lose (s : ReaderState) (now : Nat) (inv : Inventory)
    (hs : silentRead inv) (hp : s.tagPresent = true)
    (ht : TAG_TIMEOUT < sub32 now s.lastTagTime) :
    (scanTick s now inv).2 = invoke s s.lastUID false ∧
    (scanTick s now inv).1.tagPresent = false ∧
    (scanTick s now inv).1.lastUID = "" := by
  have ht2 : sub32 now s.lastTagTime > TAG_TIMEOUT := ht
  unfold scanTick
  by_cases hrc : inv.rc = ISO15693_EC_OK
  · have hinv : invalidUID inv.uid = true := by
      rcases hs with h | h
      · exact absurd hrc h
      · exact h
    simp [hrc, hinv, tagRemoval, hp, ht2, invoke]
  · by_cases h1 : inv.rc = 0x01
    · simp only [if_neg hrc]
      simp [h1, tagRemoval, hp, ht2, invoke]
    · simp only [hrc, h1, if_false, ne_eq, not_false_eq_true, if_true]
      split <;> simp [tagRemoval, hp, ht2, invoke]


theorem step_pending (s : ReaderState) (now : Nat) (uid : UidBuf)
    (hs : isScanTick s now) (hv : invalidUID uid = false)
    (hne : formatUID uid ≠ s.pendingUID) :
    ∃ s', processNFCReader s now (okRead uid) = (s', []) ∧ Frame s s' now ∧
      s'.pendingUID = formatUID uid ∧ s'.consecutiveReads = 1 ∧
      s'.tagPresent = s.tagPresent ∧ s'.lastUID = s.lastUID ∧
      s'.lastTagTime = s.lastTagTime := by
  rw [processNFCReader_of_isScanTick s now _ hs, scanTick_pending s now uid hv hne]
  exact ⟨_, rfl, ⟨rfl, rfl, rfl, rfl⟩, rfl, rfl, rfl, rfl, rfl⟩

theorem step_accept (s : ReaderState) (now : Nat) (uid : UidBuf)
    (hs : isScanTick s now) (hv : invalidUID uid = false)
    (heq : formatUID uid = s.pendingUID)
    (h1 : 1 ≤ s.consecutiveReads) (h2 : s.consecutiveReads < 2147483647) :
    ∃ s', processNFCReader s now (okRead uid) = (s', invoke s (formatUID uid) true) ∧
      Frame s s' now ∧
      s'.pendingUID = formatUID uid ∧ s'.consecutiveReads = s.consecutiveReads + 1 ∧
      s'.tagPresent = true ∧ s'.lastUID = formatUID uid ∧ s'.lastTagTime = now := by
  rw [processNFCReader_of_isScanTick s now _ hs]
  by_cases hnew : formatUID uid = s.lastUID
  · by_cases hp : s.tagPresent = true
    · rw [scanTick_refresh s now uid hv heq h1 h2 hnew hp]
      exact ⟨_, rfl, ⟨rfl, rfl, rfl, rfl⟩, heq.symm, rfl, hp, hnew.symm, rfl⟩
    · rw [scanTick_return s now uid hv heq h1 h2 hnew (by simpa using hp)]
      exact ⟨_, rfl, ⟨rfl, rfl, rfl, rfl⟩, heq.symm, rfl, rfl, hnew.symm, rfl⟩
  · rw [scanTick_confirm s now uid hv heq h1 h2 hnew]
    exact ⟨_, rfl, ⟨rfl, rfl, rfl, rfl⟩, heq.symm, rfl, rfl, rfl, rfl⟩

theorem step_silent_keep (s : ReaderState) (now : Nat) (inv : Inventory)
    (hs : isScanTick s now) (hsil : silentRead inv)
    (hk : ¬ (s.tagPresent = true ∧ TAG_TIMEOUT < sub32 now s.lastTagTime)) :
    ∃ s', processNFCReader s now inv = (s', []) ∧ Frame s s' now ∧
      s'.tagPresent = s.tagPresent ∧ s'.lastUID = s.lastUID ∧
      s'.lastTagTime = s.lastTagTime := by
  rw [processNFCReader_of_isScanTick s now _ hs]
  obtain ⟨a, b, c, d, e, f, g, h⟩ := scanTick_silent_keep s now inv hsil hk
  exact ⟨(scanTick s now inv).1, Prod.ext rfl a, ⟨f, g, h, e⟩, b, c, d⟩

theorem step_silent_lose (s : ReaderState) (now : Nat) (inv : Inventory)
    (hs : isScanTick s now) (hsil : silentRead inv) (hp : s.tagPresent = true)
    (ht : TAG_TIMEOUT < sub32 now s.lastTagTime) :
    ∃ s', processNFCReader s now inv = (s', invoke s s.lastUID false) ∧
      s'.tagPresent = false ∧ s'.lastUID = "" := by
  rw [processNFCReader_of_isScanTick s now _ hs]
  obtain ⟨a, b, c⟩ := scanTick_silent_lose s now inv hsil hp ht
  exact ⟨(scanTick s now inv).1, Prod.ext rfl a, b, c⟩

theorem scanTick_invalid (s : ReaderState) (now : Nat) (uid : UidBuf)
    (hinv : invalidUID uid = true) :
    scanTick s now (okRead uid) =
      tagRemoval { s with
        lastScanTime := now
        nfcStatus := { s.nfcStatus with
          totalScans := inc32 s.nfcStatus.totalScans
          failedReads := inc32 s.nfcStatus.failedReads }
        consecutiveReads := 0
        pendingUID := "" } now := by
  simp [scanTick, okRead, hinv]

theorem tagRemoval_fire (s : ReaderState) (now : Nat) (hp : s.tagPresent = true)
    (ht : TAG_TIMEOUT < sub32 now s.lastTagTime) :
    tagRemoval s now =
      ({ s with
          tagPresent := false
          nfcStatus := { s.nfcStatus with lastError := "Scanning..." }
          lastUID := "" },
        invoke s s.lastUID false) := by
  have ht2 : sub32 now s.lastTagTime > TAG_TIMEOUT := ht
  simp [tagRemoval, hp, ht2]

theorem tagRemoval_skip (s : ReaderState) (now : Nat)
    (h : ¬ (s.tagPresent = true ∧ TAG_TIMEOUT < sub32 now s.lastTagTime)) :
    tagRemoval s now = (s, []) := by
  have h2 : ¬ (s.tagPresent = true ∧ sub32 now s.lastTagTime > TAG_TIMEOUT) := h
  simp only [tagRemoval, Bool.and_eq_true, decide_eq_true_eq, h2, if_false]

theorem invoke_present (s : ReaderState) (u : String) (p : Bool) :
    ∀ e ∈ invoke s u p, e = (u, p) := by
  intro e he
  unfold invoke at he
  split at he
  · simpa using he
  · simp at he

theorem step_invalid (s : ReaderState) (now : Nat) (uid : UidBuf)
    (hs : isScanTick s now) (hinv : invalidUID uid = true) :
    ∃ s' ev, processNFCReader s now (okRead uid) = (s', ev) ∧ Frame s s' now ∧
      s'.nfcStatus.failedReads = inc32 s.nfcStatus.failedReads ∧
      s'.nfcStatus.successfulReads = s.nfcStatus.successfulReads ∧
      s'.pendingUID = "" ∧ s'.consecutiveReads = 0 ∧
      (∀ e ∈ ev, e.2 = false) ∧
      (s.tagPresent = false → ev = [] ∧ s'.tagPresent = false ∧ s'.lastUID = s.lastUID) := by
  rw [processNFCReader_of_isScanTick s now _ hs, scanTick_invalid s now uid hinv]
  by_cases hc : s.tagPresent = true ∧ TAG_TIMEOUT < sub32 now s.lastTagTime
  · rw [tagRemoval_fire]
    · refine ⟨_, _, rfl, ⟨rfl, rfl, rfl, rfl⟩, rfl, rfl, rfl, rfl, ?_, ?_⟩
      · intro e he
        rw [invoke_present _ _ _ e he]
      · intro hp
        rw [hc.1] at hp
        exact absurd hp (by decide)
    · exact hc.1
    · exact hc.2
  · rw [tagRemoval_skip]
    · refine ⟨_, _, rfl, ⟨rfl, rfl, rfl, rfl⟩, rfl, rfl, rfl, rfl, ?_, ?_⟩
      · intro e he; simp at he
      · intro hp; exact ⟨rfl, hp, rfl⟩
    · exact hc

theorem processNFCReader_of_not_isScanTick (s : ReaderState) (now : Nat) (inv : Inventory)
    (h : ¬ isScanTick s now) : processNFCReader s now inv = (s, []) := by
  unfold processNFCReader
  by_cases h1 : s.readerInitialized = true
  · by_cases h2 : s.nfc = true
    · have h3 : sub32 now s.lastScanTime < SCAN_INTERVAL := by
        by_contra hc
        exact h ⟨h1, h2, Nat.le_of_not_lt hc⟩
      simp [h1, h2, h3]
    · simp [h2]
  · simp [h1]

theorem validRead_cases (s : ReaderState) (now : Nat) (uid : UidBuf) :
    ((validRead s now uid).2 = [] ∧
      (validRead s now uid).1.tagPresent = s.tagPresent ∧
      (validRead s now uid).1.lastUID = s.lastUID ∧
      (validRead s now uid).1.lastTagTime = s.lastTagTime) ∨
    ((validRead s now uid).2 = invoke s (formatUID uid) true ∧
      (validRead s now uid).1.tagPresent = true ∧
      (validRead s now uid).1.lastUID = formatUID uid ∧
      (validRead s now uid).1.lastTagTime = now) := by
  unfold validRead
  by_cases hpe : formatUID uid = s.pendingUID
  · by_cases hlt : wrapInt32 (s.consecutiveReads + 1) < REQUIRED_CONSECUTIVE_READS
    · left
      simp [hpe.symm, hlt]
    · right
      by_cases hl : formatUID uid = s.lastUID
      · by_cases hp : s.tagPresent = true
        · simp [hpe.symm, hlt, hl.symm, hp, tagRemoval, sub32_self, TAG_TIMEOUT, invoke]
        · simp [hpe.symm, hlt, hl.symm, hp, tagRemoval, sub32_self, TAG_TIMEOUT, invoke]
      · simp [hpe.symm, hlt, hl, tagRemoval, sub32_self, TAG_TIMEOUT, invoke]
  · left
    simp [hpe, REQUIRED_CONSECUTIVE_READS]

theorem validRead_frame (s : ReaderState) (now : Nat) (uid : UidBuf) :
    (validRead s now uid).1.readerInitialized = s.readerInitialized ∧
    (validRead s now uid).1.nfc = s.nfc ∧
    (validRead s now uid).1.tagCallback = s.tagCallback ∧
    (validRead s now uid).1.lastScanTime = s.lastScanTime := by
  unfold validRead
  by_cases hpe : formatUID uid = s.pendingUID
  · by_cases hlt : wrapInt32 (s.consecutiveReads + 1) < REQUIRED_CONSECUTIVE_READS
    · simp [hpe.symm, hlt]
    · by_cases hl : formatUID uid = s.lastUID
      · by_cases hp : s.tagPresent = true
        · simp [hpe.symm, hlt, hl.symm, hp, tagRemoval, sub32_self, TAG_TIMEOUT]
        · simp [hpe.symm, hlt, hl.symm, hp, tagRemoval, sub32_self, TAG_TIMEOUT]
      · simp [hpe.symm, hlt, hl, tagRemoval, sub32_self, TAG_TIMEOUT]
  · simp [hpe, REQUIRED_CONSECUTIVE_READS]

/-- The three outcomes of a call: nothing happens to the presence fields and no callback
is invoked; a valid read is accepted; a silent scan tick removes a timed-out tag. -/
theorem processNFCReader_cases (s : ReaderState) (now : Nat) (inv : Inventory) :
    ((processNFCReader s now inv).2 = [] ∧
      (processNFCReader s now inv).1.tagPresent = s.tagPresent ∧
      (processNFCReader s now inv).1.lastUID = s.lastUID ∧
      (processNFCReader s now inv).1.lastTagTime = s.lastTagTime) ∨
    (isScanTick s now ∧ inv.rc = ISO15693_EC_OK ∧ invalidUID inv.uid = false ∧
      (processNFCReader s now inv).2 = invoke s (formatUID inv.uid) true ∧
      (processNFCReader s now inv).1.tagPresent = true ∧
      (processNFCReader s now inv).1.lastUID = formatUID inv.uid ∧
      (processNFCReader s now inv).1.lastTagTime = now) ∨
    (isScanTick s now ∧ silentRead inv ∧
      s.tagPresent = true ∧ TAG_TIMEOUT < sub32 now s.lastTagTime ∧
      (processNFCReader s now inv).2 = invoke s s.lastUID false ∧
      (processNFCReader s now inv).1.tagPresent = false ∧
      (processNFCReader s now inv).1.lastUID = "") := by
  by_cases hs : isScanTick s now
  · by_cases hsil : silentRead inv
    · by_cases hk : s.tagPresent = true ∧ TAG_TIMEOUT < sub32 now s.lastTagTime
      · right; right
        obtain ⟨s', e, a, b⟩ := step_silent_lose s now inv hs hsil hk.1 hk.2
        rw [e]
        exact ⟨hs, hsil, hk.1, hk.2, rfl, a, b⟩
      · left
        obtain ⟨s', e, -, a, b, c⟩ := step_silent_keep s now inv hs hsil hk
        rw [e]
        exact ⟨rfl, a, b, c⟩
    · have hrc : inv.rc = ISO15693_EC_OK := by
        by_contra h; exact hsil (Or.inl h)
      have hv : invalidUID inv.uid = false := by
        cases h : invalidUID inv.uid
        · rfl
        · exact absurd (Or.inr h) hsil
      have e : processNFCReader s now inv =
          validRead { s with
            lastScanTime := now
            nfcStatus := { s.nfcStatus with totalScans := inc32 s.nfcStatus.totalScans } }
            now inv.uid := by
        rw [processNFCReader_of_isScanTick s now inv hs]
        simp [scanTick, hrc, hv]
      rw [e]
      rcases validRead_cases { s with
            lastScanTime := now
            nfcStatus := { s.nfcStatus with totalScans := inc32 s.nfcStatus.totalScans } }
            now inv.uid with h | h
      · left; exact h
      · right; left
        exact ⟨hs, hrc, hv, h⟩
  · left
    rw [processNFCReader_of_not_isScanTick s now inv hs]
    exact ⟨rfl, rfl, rfl, rfl⟩

theorem processNFCReader_frame (s : ReaderState) (now : Nat) (inv : Inventory)
    (hs : isScanTick s now) : Frame s (processNFCReader s now inv).1 now := by
  rw [processNFCReader_of_isScanTick s now inv hs]
  unfold Frame scanTick
  by_cases hrc : inv.rc = ISO15693_EC_OK
  · cases hv : invalidUID inv.uid
    · simp only [hrc, hv, if_true, Bool.false_eq_true, if_false]
      exact validRead_frame _ now inv.uid
    · simp only [hrc, hv, if_true, tagRemoval]
      split <;> exact ⟨rfl, rfl, rfl, rfl⟩
  · simp only [hrc, if_false, tagRemoval]
    split <;> split <;> (try split) <;> exact ⟨rfl, rfl, rfl, rfl⟩

theorem inc32_three : inc32 (inc32 (inc32 0)) = 3 := by decide

theorem sub32_add_left (t d : Nat) (hd : d < U32) : sub32 ((t + d) % U32) t = d := by
  unfold sub32 U32 at *; omega

theorem sub32_step (t a b : Nat) (hab : a ≤ b) (hb : b - a < U32) :
    sub32 ((t + b) % U32) ((t + a) % U32) = b - a := by
  unfold sub32 U32 at *; omega

/-- A call that invokes the callback with `(U, true)` is a scan tick that leaves `U`
confirmed, last seen at the time of the call. -/
theorem present_of_confirm (s : ReaderState) (now : Nat) (inv : Inventory) (U : String)
    (h : (U, true) ∈ (processNFCReader s now inv).2) :
    Present (processNFCReader s now inv).1 U now ∧
      (processNFCReader s now inv).1.lastScanTime = now := by
  rcases processNFCReader_cases s now inv with hc | hc | hc
  · rw [hc.1] at h; simp at h
  · obtain ⟨hs, -, -, e, p, l, t⟩ := hc
    rw [e] at h
    have hu := invoke_present _ _ _ _ h
    have hcb : s.tagCallback = true := by
      cases hcb : s.tagCallback
      · simp [invoke, hcb] at h
      · rfl
    obtain ⟨f1, f2, f3, f4⟩ := processNFCReader_frame s now inv hs
    simp only [Prod.mk.injEq, and_true] at hu
    exact ⟨⟨f1.trans hs.1, f2.trans hs.2.1, f3.trans hcb, p, by rw [l, hu], t⟩, f4⟩
  · obtain ⟨-, -, -, -, e, -, -⟩ := hc
    rw [e] at h
    have hu := invoke_present _ _ _ _ h
    simp at hu

/-- A silent scan tick within the timeout keeps the tag. -/
theorem present_silent_keep (s : ReaderState) (U : String) (t0 now : Nat) (inv : Inventory)
    (hP : Present s U t0) (hg : SCAN_INTERVAL ≤ sub32 now s.lastScanTime)
    (hsil : silentRead inv) (hk : sub32 now t0 ≤ TAG_TIMEOUT) :
    ∃ s', processNFCReader s now inv = (s', []) ∧ Present s' U t0 ∧ s'.lastScanTime = now := by
  obtain ⟨hi, hn, hcb, hp, hl, ht⟩ := hP
  obtain ⟨s', e, f, a, b, c⟩ := step_silent_keep s now inv ⟨hi, hn, hg⟩ hsil
    (by rw [ht]; intro h; exact absurd h.2 (Nat.not_lt.mpr hk))
  exact ⟨s', e, ⟨f.1.trans hi, f.2.1.trans hn, f.2.2.1.trans hcb, a.trans hp, b.trans hl,
    c.trans ht⟩, f.2.2.2⟩

/-! ## The claims on the presence debouncer -/

/-- C1. From the state of an initialised reader with no tag present and nothing pending,
two consecutive scan ticks that both read the same valid UID invoke the callback zero times
on the first tick and exactly once, with `(U, true)`, on the second; afterwards `tagPresent`
is true and `lastUID = U`, where `U` is the identifier string of the UID. -/
theorem two_equal_reads_confirm (s : ReaderState) (uid : UidBuf) (t1 t2 : Nat)
    (hidle : Idle s) (hv : invalidUID uid = false)
    (hticks : allScanTicks s [(t1, okRead uid), (t2, okRead uid)]) :
    (runCalls s [(t1, okRead uid), (t2, okRead uid)]).2 = [[], [(formatUID uid, true)]] ∧
    (runCalls s [(t1, okRead uid), (t2, okRead uid)]).1.tagPresent = true ∧
    (runCalls s [(t1, okRead uid), (t2, okRead uid)]).1.lastUID = formatUID uid := by
  obtain ⟨hi, hn, hcb, hp, hl, hpu, hc⟩ := hidle
  obtain ⟨hs1, hs2, -⟩ := hticks
  have hne : formatUID uid ≠ s.pendingUID := by rw [hpu]; exact formatUID_ne_empty uid
  obtain ⟨s1, e1, f1, p1, c1, -, -, -⟩ := step_pending s t1 uid hs1 hv hne
  rw [e1] at hs2
  obtain ⟨s2, e2, -, -, -, q2, l2, -⟩ :=
    step_accept s1 t2 uid hs2 hv p1.symm (by omega) (by omega)
  have hcb1 : s1.tagCallback = true := f1.2.2.1.trans hcb
  simp only [runCalls, e1, e2, invoke, hcb1, if_true]
  exact ⟨trivial, q2, l2⟩

/-- The instance of C1 with `U = ABCD1234ABCD1234`, on the reader right after
`initNFCReader` and `setTagCallback`, with ticks at 250 ms and 500 ms. -/
theorem two_equal_reads_confirm_witness :
    (runCalls readyState [(250, okRead uidABCD), (500, okRead uidABCD)]).2
        = [[], [("ABCD1234ABCD1234", true)]] ∧
    (runCalls readyState [(250, okRead uidABCD), (500, okRead uidABCD)]).1.tagPresent = true ∧
    (runCalls readyState [(250, okRead uidABCD), (500, okRead uidABCD)]).1.lastUID
        = "ABCD1234ABCD1234" := by
  have h := two_equal_reads_confirm readyState uidABCD 250 500 (by decide) (by decide)
    (by decide)
  have hf : formatUID uidABCD = "ABCD1234ABCD1234" := by decide
  rw [hf] at h
  exact h

/-- C2, evaluated on the reads `U`, `0x01`, `U` (with `U = ABCD1234ABCD1234`) from the
initial state of an initialised reader: the third tick changes `tagPresent` from false to
true with identifier `U`, although the scan tick immediately before it read the no-tag code
`0x01` and not `U`. -/
theorem confirmation_across_no_tag_tick :
    allScanTicks readyState [(250, okRead uidABCD), (500, noTag), (750, okRead uidABCD)] ∧
    noTag.rc = 0x01 ∧
    (runCalls readyState [(250, okRead uidABCD), (500, noTag)]).1.tagPresent = false ∧
    (runCalls readyState
      [(250, okRead uidABCD), (500, noTag), (750, okRead uidABCD)]).1.tagPresent = true ∧
    (runCalls readyState
      [(250, okRead uidABCD), (500, noTag), (750, okRead uidABCD)]).1.lastUID
        = "ABCD1234ABCD1234" ∧
    (runCalls readyState
      [(250, okRead uidABCD), (500, noTag), (750, okRead uidABCD)]).2
        = [[], [], [("ABCD1234ABCD1234", true)]] := by
  decide

/-- C4, evaluated on the state where `ABCD1234ABCD1234` is pending with
`consecutiveReads = 1` and no tag is confirmed: a scan tick that returns the no-tag code
`0x01` leaves `pendingUID` and `consecutiveReads` as they are and invokes no callback, and
the single following read of the same UID confirms it. -/
theorem no_tag_code_keeps_pending :
    pendingABCD.tagPresent = false ∧ pendingABCD.pendingUID = "ABCD1234ABCD1234" ∧
    pendingABCD.consecutiveReads = 1 ∧ isScanTick pendingABCD 500 ∧
    (processNFCReader pendingABCD 500 noTag).1.pendingUID = "ABCD1234ABCD1234" ∧
    (processNFCReader pendingABCD 500 noTag).1.consecutiveReads = 1 ∧
    (processNFCReader pendingABCD 500 noTag).2 = [] ∧
    (processNFCReader (processNFCReader pendingABCD 500 noTag).1 750 (okRead uidABCD)).2
      = [("ABCD1234ABCD1234", true)] ∧
    (processNFCReader (processNFCReader pendingABCD 500 noTag).1 750
      (okRead uidABCD)).1.tagPresent = true := by
  decide

/-- C3 fails as stated: with `A = ABCD1234ABCD1234` and `B = E004010012345678`, five scan
ticks reading `A, A, B, A, A` from the initial state invoke the callback with `(A, true)`
on the second tick already, and `tagPresent` is true after the second tick. -/
theorem aabaa_confirms_at_second_tick :
    formatUID uidABCD = "ABCD1234ABCD1234" ∧ formatUID uidE004 = "E004010012345678" ∧
    invalidUID uidABCD = false ∧ invalidUID uidE004 = false ∧
    allScanTicks readyState
      [(250, okRead uidABCD), (500, okRead uidABCD), (750, okRead uidE004),
        (1000, okRead uidABCD), (1250, okRead uidABCD)] ∧
    (runCalls readyState [(250, okRead uidABCD), (500, okRead uidABCD)]).1.tagPresent = true ∧
    (runCalls readyState
      [(250, okRead uidABCD), (500, okRead uidABCD), (750, okRead uidE004),
        (1000, okRead uidABCD), (1250, okRead uidABCD)]).2
      = [[], [("ABCD1234ABCD1234", true)], [], [], [("ABCD1234ABCD1234", true)]] := by
  decide

/-- C3, amended. For two distinct valid UIDs `A` and `B`, five scan ticks reading
`A, A, B, A, A` from an initialised reader with no tag present and nothing pending confirm
`A` at the second tick (first callback `(A, true)`, `tagPresent` false before it and true
after it); the third and the fourth tick invoke no callback and leave `tagPresent` true and
`lastUID = A`, and the fifth tick invokes the callback with `(A, true)` once more. -/
theorem aabaa_events (s : ReaderState) (A B : UidBuf) (t1 t2 t3 t4 t5 : Nat)
    (hidle : Idle s) (hA : invalidUID A = false) (hB : invalidUID B = false)
    (hAB : A ≠ B)
    (hticks : allScanTicks s
      [(t1, okRead A), (t2, okRead A), (t3, okRead B), (t4, okRead A), (t5, okRead A)]) :
    (runCalls s
      [(t1, okRead A), (t2, okRead A), (t3, okRead B), (t4, okRead A), (t5, okRead A)]).2
      = [[], [(formatUID A, true)], [], [], [(formatUID A, true)]] ∧
    (runCalls s [(t1, okRead A)]).1.tagPresent = false ∧
    (runCalls s [(t1, okRead A), (t2, okRead A)]).1.tagPresent = true ∧
    (runCalls s [(t1, okRead A), (t2, okRead A), (t3, okRead B)]).1.tagPresent = true ∧
    (runCalls s
      [(t1, okRead A), (t2, okRead A), (t3, okRead B), (t4, okRead A)]).1.tagPresent = true ∧
    (runCalls s
      [(t1, okRead A), (t2, okRead A), (t3, okRead B), (t4, okRead A),
        (t5, okRead A)]).1.tagPresent = true ∧
    (runCalls s [(t1, okRead A), (t2, okRead A)]).1.lastUID = formatUID A ∧
    (runCalls s [(t1, okRead A), (t2, okRead A), (t3, okRead B)]).1.lastUID
      = formatUID A ∧
    (runCalls s
      [(t1, okRead A), (t2, okRead A), (t3, okRead B), (t4, okRead A)]).1.lastUID
      = formatUID A ∧
    (runCalls s
      [(t1, okRead A), (t2, okRead A), (t3, okRead B), (t4, okRead A),
        (t5, okRead A)]).1.lastUID = formatUID A := by
  obtain ⟨hi, hn, hcb, hp, hl, hpu, hc⟩ := hidle
  have hfAB : formatUID A ≠ formatUID B := fun h => hAB (formatUID_injective A B h)
  simp only [allScanTicks] at hticks
  obtain ⟨hs1, hs2, hs3, hs4, hs5, -⟩ := hticks
  obtain ⟨s1, e1, f1, p1, c1, q1, l1, -⟩ :=
    step_pending s t1 A hs1 hA (by rw [hpu]; exact formatUID_ne_empty A)
  simp only [e1] at hs2 hs3 hs4 hs5
  obtain ⟨s2, e2, f2, p2, c2, q2, l2, -⟩ :=
    step_accept s1 t2 A hs2 hA p1.symm (by omega) (by omega)
  simp only [e2] at hs3 hs4 hs5
  obtain ⟨s3, e3, f3, p3, c3, q3, l3, -⟩ :=
    step_pending s2 t3 B hs3 hB (by rw [p2]; exact fun h => hfAB h.symm)
  simp only [e3] at hs4 hs5
  obtain ⟨s4, e4, f4, p4, c4, q4, l4, -⟩ :=
    step_pending s3 t4 A hs4 hA (by rw [p3]; exact hfAB)
  simp only [e4] at hs5
  obtain ⟨s5, e5, f5, p5, c5, q5, l5, -⟩ :=
    step_accept s4 t5 A hs5 hA p4.symm (by omega) (by omega)
  have hcb1 : s1.tagCallback = true := f1.2.2.1.trans hcb
  have hcb4 : s4.tagCallback = true :=
    f4.2.2.1.trans (f3.2.2.1.trans (f2.2.2.1.trans hcb1))
  simp only [runCalls, e1, e2, e3, e4, e5, invoke, hcb1, hcb4, if_true]
  exact ⟨trivial, q1.trans hp, q2, q3.trans q2, q4.trans (q3.trans q2), q5, l2,
    l3.trans l2, l4.trans (l3.trans l2), l5⟩

/-- The instance of the amended C3 with `A = ABCD1234ABCD1234` and `B = E004010012345678`,
ticks every 250 ms. -/
theorem aabaa_events_witness :
    (runCalls readyState
      [(250, okRead uidABCD), (500, okRead uidABCD), (750, okRead uidE004),
        (1000, okRead uidABCD), (1250, okRead uidABCD)]).2
      = [[], [(formatUID uidABCD, true)], [], [], [(formatUID uidABCD, true)]] :=
  (aabaa_events readyState uidABCD uidE004 250 500 750 1000 1250 (by decide) (by decide)
    (by decide) (by decide) (by decide)).1

/-- C5 fails as stated: in the state where `failedReads` is `2^32 - 1`, a scan tick whose
read returns `ISO15693_EC_OK` with the all-zero buffer leaves `failedReads = 0`, not
`2^32`: the `uint32_t` counter wraps and does not increase by 1. -/
theorem failed_reads_wrap_at_top :
    isScanTick readyStateFailedMax 250 ∧ sentinelUID uidZeros ∧
    readyStateFailedMax.nfcStatus.failedReads = 4294967295 ∧
    (processNFCReader readyStateFailedMax 250 (okRead uidZeros)).1.nfcStatus.failedReads = 0 ∧
    (processNFCReader readyStateFailedMax 250 (okRead uidZeros)).1.nfcStatus.failedReads
      ≠ readyStateFailedMax.nfcStatus.failedReads + 1 :=
  ⟨by decide, Or.inl fun _ => rfl, rfl, by decide, by decide⟩

/-- C5, amended. On every scan tick whose read returns `ISO15693_EC_OK` with a sentinel
buffer (all eight bytes `0x00`, or all eight bytes `0xFF`), `failedReads` is incremented in
`uint32_t` arithmetic, which is an increase by exactly 1 in every state with
`failedReads < 2^32 - 1` (from `2^32 - 1` it wraps to 0), `successfulReads` is unchanged,
`pendingUID` is reset to the empty string and `consecutiveReads` to 0, and every callback
invocation of the tick has `present = false`. In particular three such ticks from a state
with no tag present and `failedReads = 0` invoke no callback at all, leave `tagPresent`
false and make `failedReads = 3`. -/
theorem sentinel_read_counts_as_failure (s : ReaderState) (now : Nat) (uid : UidBuf)
    (hs : isScanTick s now) (hsent : sentinelUID uid) :
    ((processNFCReader s now (okRead uid)).1.nfcStatus.failedReads
        = inc32 s.nfcStatus.failedReads ∧
      (s.nfcStatus.failedReads + 1 < U32 →
        (processNFCReader s now (okRead uid)).1.nfcStatus.failedReads
          = s.nfcStatus.failedReads + 1)) ∧
    (processNFCReader s now (okRead uid)).1.nfcStatus.successfulReads
        = s.nfcStatus.successfulReads ∧
    (processNFCReader s now (okRead uid)).1.pendingUID = "" ∧
    (processNFCReader s now (okRead uid)).1.consecutiveReads = 0 ∧
    (∀ e ∈ (processNFCReader s now (okRead uid)).2, e.2 = false) ∧
    (∀ (u2 u3 : UidBuf) (t2 t3 : Nat),
      s.tagPresent = false → s.nfcStatus.failedReads = 0 →
      sentinelUID u2 → sentinelUID u3 →
      allScanTicks s [(now, okRead uid), (t2, okRead u2), (t3, okRead u3)] →
      (runCalls s [(now, okRead uid), (t2, okRead u2), (t3, okRead u3)]).2 = [[], [], []] ∧
      (runCalls s
        [(now, okRead uid), (t2, okRead u2), (t3, okRead u3)]).1.tagPresent = false ∧
      (runCalls s
        [(now, okRead uid), (t2, okRead u2), (t3, okRead u3)]).1.nfcStatus.failedReads
          = 3) := by
  obtain ⟨s1, ev1, e1, f1, a1, b1, c1, d1, g1, k1⟩ :=
    step_invalid s now uid hs (sentinel_invalid uid hsent)
  rw [e1]
  refine ⟨⟨a1, ?_⟩, b1, c1, d1, g1, ?_⟩
  · intro hlt
    rw [a1]
    unfold inc32
    exact Nat.mod_eq_of_lt hlt
  · intro u2 u3 t2 t3 hp hf0 h2 h3 hticks
    simp only [allScanTicks] at hticks
    obtain ⟨-, hs2, hs3, -⟩ := hticks
    obtain ⟨ev1nil, p1, -⟩ := k1 hp
    simp only [e1] at hs2 hs3
    obtain ⟨s2, ev2, e2, f2, a2, b2, c2, d2, g2, k2⟩ :=
      step_invalid s1 t2 u2 hs2 (sentinel_invalid u2 h2)
    obtain ⟨ev2nil, p2, -⟩ := k2 p1
    simp only [e2] at hs3
    obtain ⟨s3, ev3, e3, f3, a3, b3, c3, d3, g3, k3⟩ :=
      step_invalid s2 t3 u3 hs3 (sentinel_invalid u3 h3)
    obtain ⟨ev3nil, p3, -⟩ := k3 p2
    simp only [runCalls, e1, e2, e3, ev1nil, ev2nil, ev3nil]
    refine ⟨trivial, p3, ?_⟩
    rw [a3, a2, a1, hf0]
    exact inc32_three

/-- The instance of the amended C5 on the initial state of an initialised reader, with the
reads all-zero, all-`0xFF`, all-zero at 250, 500 and 750 ms. -/
theorem sentinel_read_counts_as_failure_witness :
    (processNFCReader readyState 250 (okRead uidZeros)).1.nfcStatus.failedReads = 1 ∧
    (runCalls readyState
      [(250, okRead uidZeros), (500, okRead uidFF), (750, okRead uidZeros)]).2
        = [[], [], []] ∧
    (runCalls readyState
      [(250, okRead uidZeros), (500, okRead uidFF), (750, okRead uidZeros)]).1.tagPresent
        = false ∧
    (runCalls readyState
      [(250, okRead uidZeros), (500, okRead uidFF),
        (750, okRead uidZeros)]).1.nfcStatus.failedReads = 3 := by
  have h := sentinel_read_counts_as_failure readyState 250 uidZeros (by decide)
    (Or.inl fun _ => rfl)
  exact ⟨h.1.2 (by decide),
    h.2.2.2.2.2 uidFF uidZeros 500 750 (by decide) (by decide) (Or.inr fun _ => rfl)
      (Or.inl fun _ => rfl) (by decide)⟩

/-- C6. If a call at time `t0` confirms the tag `U` (it invokes the callback with
`(U, true)`, hence `lastTagTime = t0`) and the next five calls occur at `t0 + 250`,
`t0 + 500`, `t0 + 750`, `t0 + 1000` and `t0 + 1250` ms (as `millis()` values, modulo `2^32`)
and each read is silent (return code `0x01`, another error code, or an invalid buffer such as
a sentinel), then the five calls are scan ticks, the first four invoke no callback and the
fifth invokes it exactly once, with `(U, false)`. -/
theorem one_loss_event_after_five_silent_ticks (s0 : ReaderState) (t0 : Nat)
    (inv0 : Inventory) (U : String) (i1 i2 i3 i4 i5 : Inventory)
    (hconf : (U, true) ∈ (processNFCReader s0 t0 inv0).2)
    (h1 : silentRead i1) (h2 : silentRead i2) (h3 : silentRead i3) (h4 : silentRead i4)
    (h5 : silentRead i5) :
    (processNFCReader s0 t0 inv0).1.lastTagTime = t0 ∧
    allScanTicks (processNFCReader s0 t0 inv0).1
      [((t0 + 250) % U32, i1), ((t0 + 500) % U32, i2), ((t0 + 750) % U32, i3),
        ((t0 + 1000) % U32, i4), ((t0 + 1250) % U32, i5)] ∧
    (runCalls (processNFCReader s0 t0 inv0).1
      [((t0 + 250) % U32, i1), ((t0 + 500) % U32, i2), ((t0 + 750) % U32, i3),
        ((t0 + 1000) % U32, i4), ((t0 + 1250) % U32, i5)]).2
      = [[], [], [], [], [(U, false)]] := by
  obtain ⟨hP, hl⟩ := present_of_confirm s0 t0 inv0 U hconf
  generalize (processNFCReader s0 t0 inv0).1 = s at hP hl
  have hU : (250 : Nat) < U32 := by decide
  obtain ⟨s1, e1, P1, l1⟩ := present_silent_keep s U t0 ((t0 + 250) % U32) i1 hP
    (by rw [hl, sub32_add_left t0 250 (by decide)]; decide) h1
    (by rw [sub32_add_left t0 250 (by decide)]; decide)
  obtain ⟨s2, e2, P2, l2⟩ := present_silent_keep s1 U t0 ((t0 + 500) % U32) i2 P1
    (by rw [l1, sub32_step t0 250 500 (by decide) (by decide)]; decide) h2
    (by rw [sub32_add_left t0 500 (by decide)]; decide)
  obtain ⟨s3, e3, P3, l3⟩ := present_silent_keep s2 U t0 ((t0 + 750) % U32) i3 P2
    (by rw [l2, sub32_step t0 500 750 (by decide) (by decide)]; decide) h3
    (by rw [sub32_add_left t0 750 (by decide)]; decide)
  obtain ⟨s4, e4, P4, l4⟩ := present_silent_keep s3 U t0 ((t0 + 1000) % U32) i4 P3
    (by rw [l3, sub32_step t0 750 1000 (by decide) (by decide)]; decide) h4
    (by rw [sub32_add_left t0 1000 (by decide)]; decide)
  have g5 : isScanTick s4 ((t0 + 1250) % U32) :=
    ⟨P4.1, P4.2.1, by rw [l4, sub32_step t0 1000 1250 (by decide) (by decide)]; decide⟩
  obtain ⟨s5, e5, -, -⟩ := step_silent_lose s4 ((t0 + 1250) % U32) i5 g5 h5 P4.2.2.2.1
    (by rw [P4.2.2.2.2.2, sub32_add_left t0 1250 (by decide)]; decide)
  have g1 : isScanTick s ((t0 + 250) % U32) :=
    ⟨hP.1, hP.2.1, by rw [hl, sub32_add_left t0 250 (by decide)]; decide⟩
  have g2 : isScanTick s1 ((t0 + 500) % U32) :=
    ⟨P1.1, P1.2.1, by rw [l1, sub32_step t0 250 500 (by decide) (by decide)]; decide⟩
  have g3 : isScanTick s2 ((t0 + 750) % U32) :=
    ⟨P2.1, P2.2.1, by rw [l2, sub32_step t0 500 750 (by decide) (by decide)]; decide⟩
  have g4 : isScanTick s3 ((t0 + 1000) % U32) :=
    ⟨P3.1, P3.2.1, by rw [l3, sub32_step t0 750 1000 (by decide) (by decide)]; decide⟩
  refine ⟨hP.2.2.2.2.2, ?_, ?_⟩
  · simp only [allScanTicks, e1, e2, e3, e4, e5]
    exact ⟨g1, g2, g3, g4, g5, trivial⟩
  · simp only [runCalls, e1, e2, e3, e4, e5, invoke, P4.2.2.1, P4.2.2.2.2.1, if_true]

/-- The instance of C6 with `U = ABCD1234ABCD1234` confirmed at `t0 = 500` and the silent
reads `0x01`, error `0x02`, all-zero buffer, all-`0xFF` buffer, `0x01`. -/
theorem one_loss_event_after_five_silent_ticks_witness :
    (runCalls presentABCD
      [(750, noTag), (1000, errorRead), (1250, okRead uidZeros), (1500, okRead uidFF),
        (1750, noTag)]).2
      = [[], [], [], [], [("ABCD1234ABCD1234", false)]] :=
  (one_loss_event_after_five_silent_ticks pendingABCD 500 (okRead uidABCD)
    "ABCD1234ABCD1234" noTag errorRead (okRead uidZeros) (okRead uidFF) noTag
    (by decide) (by decide) (by decide) (by decide) (by decide) (by decide)).2.2

/-- C7. For every state and every call of `processNFCReader`: if the call changes
`tagPresent` from true to false or invokes the callback with `present = false`, then
`tagPresent` was true before the call and `now - lastTagTime > 1000` in unsigned 32-bit
arithmetic. Hence no call loses the tag when `now - lastTagTime ≤ 1000`, in particular none
that comes `d ≤ 1000` ms after the last refreshing read (a single missed tick at the 250 ms
cadence is `d = 250` or `d = 500`). -/
theorem loss_only_after_timeout (s : ReaderState) (now : Nat) (inv : Inventory) :
    (losesTag s (processNFCReader s now inv) →
      s.tagPresent = true ∧ TAG_TIMEOUT < sub32 now s.lastTagTime) ∧
    (sub32 now s.lastTagTime ≤ TAG_TIMEOUT → ¬ losesTag s (processNFCReader s now inv)) ∧
    (∀ d, d ≤ TAG_TIMEOUT → now % U32 = (s.lastTagTime + d) % U32 →
      ¬ losesTag s (processNFCReader s now inv)) := by
  have main : losesTag s (processNFCReader s now inv) →
      s.tagPresent = true ∧ TAG_TIMEOUT < sub32 now s.lastTagTime := by
    intro h
    rcases processNFCReader_cases s now inv with hc | hc | hc
    · rcases h with ⟨hp, hq⟩ | ⟨e, he, -⟩
      · rw [hc.2.1, hp] at hq; exact absurd hq (by decide)
      · rw [hc.1] at he; simp at he
    · obtain ⟨-, -, -, e, p, -, -⟩ := hc
      rcases h with ⟨-, hq⟩ | ⟨e', he, hf⟩
      · rw [p] at hq; exact absurd hq (by decide)
      · rw [e] at he
        rw [invoke_present _ _ _ _ he] at hf
        simp at hf
    · exact ⟨hc.2.2.1, hc.2.2.2.1⟩
  refine ⟨main, ?_, ?_⟩
  · intro hle h
    exact absurd (main h).2 (Nat.not_lt.mpr hle)
  · intro d hd hnow h
    have h2 := (main h).2
    have : sub32 now s.lastTagTime = d := by
      unfold sub32 U32 TAG_TIMEOUT at *; omega
    rw [this] at h2
    exact absurd h2 (Nat.not_lt.mpr hd)

/-- Instances of C7 on the reader with `ABCD1234ABCD1234` last seen at 500 ms: the silent
tick at 1750 ms loses the tag, after a timeout; the silent ticks at 1500 ms and at 750 ms do
not. -/
theorem loss_only_after_timeout_witness :
    losesTag presentABCD (processNFCReader presentABCD 1750 noTag) ∧
    (presentABCD.tagPresent = true ∧ TAG_TIMEOUT < sub32 1750 presentABCD.lastTagTime) ∧
    ¬ losesTag presentABCD (processNFCReader presentABCD 1500 noTag) ∧
    ¬ losesTag presentABCD (processNFCReader presentABCD 750 noTag) :=
  ⟨by decide, (loss_only_after_timeout presentABCD 1750 noTag).1 (by decide),
    (loss_only_after_timeout presentABCD 1500 noTag).2.1 (by decide),
    (loss_only_after_timeout presentABCD 750 noTag).2.2 250 (by decide) (by decide)⟩

/-- C8 fails as stated: `ABCD1234ABCD1234` is confirmed, last seen at 500 ms, and the scan
tick at 2000 ms (timed out: 1500 > 1000) makes a valid read of the different identifier
`E004010012345678`, which was pending; after the tick `tagPresent` is still true, `lastUID`
is the new identifier and the only callback invocation is `(E004010012345678, true)`. -/
theorem timed_out_tag_replaced_without_loss_event :
    isScanTick presentABCD_pendingE004 2000 ∧
    presentABCD_pendingE004.tagPresent = true ∧
    presentABCD_pendingE004.lastUID = "ABCD1234ABCD1234" ∧
    TAG_TIMEOUT < sub32 2000 presentABCD_pendingE004.lastTagTime ∧
    invalidUID uidE004 = false ∧ formatUID uidE004 = "E004010012345678" ∧
    (processNFCReader presentABCD_pendingE004 2000 (okRead uidE004)).1.tagPresent = true ∧
    (processNFCReader presentABCD_pendingE004 2000 (okRead uidE004)).1.lastUID
      = "E004010012345678" ∧
    (processNFCReader presentABCD_pendingE004 2000 (okRead uidE004)).2
      = [("E004010012345678", true)] := by
  decide

/-- C8, amended. On every scan tick on which a tag `id` is confirmed present with
`now - lastTagTime > 1000` before the tick and whose read is silent (return code `0x01`,
another error code, or `ISO15693_EC_OK` with a sentinel or otherwise invalid buffer), after
the tick `tagPresent` is false, `lastUID` is empty and the callback has been invoked exactly
once, with `(id, false)`. -/
theorem timed_out_silent_tick_loses_tag (s : ReaderState) (now : Nat) (inv : Inventory)
    (id : String) (hs : isScanTick s now) (hcb : s.tagCallback = true)
    (hp : s.tagPresent = true) (hid : s.lastUID = id)
    (ht : TAG_TIMEOUT < sub32 now s.lastTagTime) (hsil : silentRead inv) :
    (processNFCReader s now inv).1.tagPresent = false ∧
    (processNFCReader s now inv).1.lastUID = "" ∧
    (processNFCReader s now inv).2 = [(id, false)] := by
  obtain ⟨s', e, a, b⟩ := step_silent_lose s now inv hs hsil hp ht
  rw [e]
  exact ⟨a, b, by simp [invoke, hcb, hid]⟩

/-- The instance of the amended C8 with `ABCD1234ABCD1234` last seen at 500 ms and an error
answer at 1750 ms. -/
theorem timed_out_silent_tick_loses_tag_witness :
    (processNFCReader presentABCD 1750 errorRead).1.tagPresent = false ∧
    (processNFCReader presentABCD 1750 errorRead).1.lastUID = "" ∧
    (processNFCReader presentABCD 1750 errorRead).2 = [("ABCD1234ABCD1234", false)] :=
  timed_out_silent_tick_loses_tag presentABCD 1750 errorRead "ABCD1234ABCD1234"
    (by decide) (by decide) (by decide) (by decide) (by decide) (by decide)

/-- C9 fails as stated: `ABCD1234ABCD1234` is confirmed and not timed out (last seen at
500 ms, tick at 1000 ms), `E004010012345678` was read on the previous tick; the tick reads
`E004010012345678` again, after which `lastUID` is `E004010012345678` and the callback has
been invoked with `(E004010012345678, true)`. -/
theorem second_foreign_read_replaces_tag :
    isScanTick presentABCD_pendingE004 1000 ∧
    presentABCD_pendingE004.tagPresent = true ∧
    presentABCD_pendingE004.lastUID = "ABCD1234ABCD1234" ∧
    sub32 1000 presentABCD_pendingE004.lastTagTime ≤ TAG_TIMEOUT ∧
    invalidUID uidE004 = false ∧ formatUID uidE004 = "E004010012345678" ∧
    (processNFCReader presentABCD_pendingE004 1000 (okRead uidE004)).1.lastUID
      = "E004010012345678" ∧
    (processNFCReader presentABCD_pendingE004 1000 (okRead uidE004)).2
      = [("E004010012345678", true)] := by
  decide

/-- C9, amended. For every state with tag `id` confirmed present and not timed out, a scan
tick that reads a valid identifier `id2 ≠ id` which is not the pending identifier
(`pendingUID ≠ id2`) leaves `tagPresent` true and `lastUID = id` and invokes no callback. -/
theorem foreign_read_not_pending_keeps_tag (s : ReaderState) (now : Nat) (uid2 : UidBuf)
    (id : String) (hs : isScanTick s now) (hp : s.tagPresent = true) (hid : s.lastUID = id)
    (_hnt : sub32 now s.lastTagTime ≤ TAG_TIMEOUT)
    (hv : invalidUID uid2 = false) (_hne : formatUID uid2 ≠ id)
    (hpend : s.pendingUID ≠ formatUID uid2) :
    (processNFCReader s now (okRead uid2)).1.tagPresent = true ∧
    (processNFCReader s now (okRead uid2)).1.lastUID = id ∧
    (processNFCReader s now (okRead uid2)).2 = [] := by
  obtain ⟨s', e, -, -, -, a, b, -⟩ := step_pending s now uid2 hs hv (fun h => hpend h.symm)
  rw [e]
  exact ⟨a.trans hp, b.trans hid, rfl⟩

/-- The instance of the amended C9 with `ABCD1234ABCD1234` confirmed at 500 ms and a first
read of `E004010012345678` at 750 ms. -/
theorem foreign_read_not_pending_keeps_tag_witness :
    (processNFCReader presentABCD 750 (okRead uidE004)).1.tagPresent = true ∧
    (processNFCReader presentABCD 750 (okRead uidE004)).1.lastUID = "ABCD1234ABCD1234" ∧
    (processNFCReader presentABCD 750 (okRead uidE004)).2 = [] :=
  foreign_read_not_pending_keeps_tag presentABCD 750 uidE004 "ABCD1234ABCD1234"
    (by decide) (by decide) (by decide) (by decide) (by decide) (by decide) (by decide)

/-- C10 fails as stated: `ABCD1234ABCD1234` is confirmed (last seen at 500 ms), the tick
at 750 ms got an error answer, and the scan tick at 1000 ms reads `ABCD1234ABCD1234`; that
tick leaves `lastTagTime = 500` and invokes no callback. -/
theorem read_after_error_does_not_refresh :
    isScanTick presentABCD_afterError 1000 ∧
    presentABCD_afterError.tagPresent = true ∧
    presentABCD_afterError.lastUID = "ABCD1234ABCD1234" ∧
    presentABCD_afterError.lastTagTime = 500 ∧
    invalidUID uidABCD = false ∧ formatUID uidABCD = "ABCD1234ABCD1234" ∧
    (processNFCReader presentABCD_afterError 1000 (okRead uidABCD)).1.lastTagTime = 500 ∧
    (processNFCReader presentABCD_afterError 1000 (okRead uidABCD)).2 = [] := by
  decide

/-- C10, amended. For every state with tag `id` confirmed present, a scan tick that reads
the valid identifier `id` while `id` is the pending identifier (`pendingUID = id` with
`1 ≤ consecutiveReads < 2^31 - 1`, as a preceding read of `id` leaves it) sets `lastTagTime`
to the time of the tick and invokes the callback exactly once, with `(id, true)`; when `id`
is not the pending identifier (the previous read was a sentinel, an error or another
identifier) and the tag is not timed out, the tick leaves `lastTagTime` unchanged, makes
`id` pending with `consecutiveReads = 1` and invokes no callback. -/
theorem pending_read_of_present_tag_refreshes (s : ReaderState) (now : Nat) (uid : UidBuf)
    (hs : isScanTick s now) (hcb : s.tagCallback = true) (_hp : s.tagPresent = true)
    (_hid : s.lastUID = formatUID uid) (hv : invalidUID uid = false) :
    (s.pendingUID = formatUID uid → 1 ≤ s.consecutiveReads →
      s.consecutiveReads < 2147483647 →
      (processNFCReader s now (okRead uid)).1.lastTagTime = now ∧
      (processNFCReader s now (okRead uid)).2 = [(formatUID uid, true)]) ∧
    (s.pendingUID ≠ formatUID uid → sub32 now s.lastTagTime ≤ TAG_TIMEOUT →
      (processNFCReader s now (okRead uid)).1.lastTagTime = s.lastTagTime ∧
      (processNFCReader s now (okRead uid)).1.pendingUID = formatUID uid ∧
      (processNFCReader s now (okRead uid)).1.consecutiveReads = 1 ∧
      (processNFCReader s now (okRead uid)).2 = []) := by
  constructor
  · intro hpe h1 h2
    obtain ⟨s', e, -, -, -, -, -, t⟩ := step_accept s now uid hs hv hpe.symm h1 h2
    rw [e]
    exact ⟨t, by simp [invoke, hcb]⟩
  · intro hpe _
    obtain ⟨s', e, -, a, b, -, -, t⟩ := step_pending s now uid hs hv (fun h => hpe h.symm)
    rw [e]
    exact ⟨t, a, b, rfl⟩

/-- Instances of the amended C10 with `ABCD1234ABCD1234` confirmed at 500 ms: read again
at 750 ms (refresh), and read at 1000 ms after an error answer at 750 ms (no refresh). -/
theorem pending_read_of_present_tag_refreshes_witness :
    ((processNFCReader presentABCD 750 (okRead uidABCD)).1.lastTagTime = 750 ∧
      (processNFCReader presentABCD 750 (okRead uidABCD)).2
        = [(formatUID uidABCD, true)]) ∧
    ((processNFCReader presentABCD_afterError 1000 (okRead uidABCD)).1.lastTagTime
        = presentABCD_afterError.lastTagTime ∧
      (processNFCReader presentABCD_afterError 1000 (okRead uidABCD)).1.pendingUID
        = formatUID uidABCD ∧
      (processNFCReader presentABCD_afterError 1000 (okRead uidABCD)).1.consecutiveReads
        = 1 ∧
      (processNFCReader presentABCD_afterError 1000 (okRead uidABCD)).2 = []) :=
  ⟨(pending_read_of_present_tag_refreshes presentABCD 750 uidABCD (by decide) (by decide)
      (by decide) (by decide) (by decide)).1 (by decide) (by decide) (by decide),
    (pending_read_of_present_tag_refreshes presentABCD_afterError 1000 uidABCD (by decide)
      (by decide) (by decide) (by decide) (by decide)).2 (by decide) (by decide)⟩

/-! ## More on one call of `processNFCReader` -/

theorem invoke_length (s : ReaderState) (u : String) (p : Bool) :
    (invoke s u p).length ≤ 1 := by
  unfold invoke
  split <;> simp

/-- C11. Every call of `processNFCReader`, from any state, at any time and for any read
result, invokes the tag callback at most once; in particular no call invokes it both with
`present = true` and with `present = false`. -/
theorem at_most_one_callback_per_call (s : ReaderState) (now : Nat) (inv : Inventory) :
    (processNFCReader s now inv).2.length ≤ 1 ∧
    ¬ ∃ e1 ∈ (processNFCReader s now inv).2, ∃ e2 ∈ (processNFCReader s now inv).2,
        e1.2 = true ∧ e2.2 = false := by
  have hlen : (processNFCReader s now inv).2.length ≤ 1 := by
    rcases processNFCReader_cases s now inv with h | h | h
    · rw [h.1]; simp
    · rw [h.2.2.2.1]; exact invoke_length _ _ _
    · rw [h.2.2.2.2.1]; exact invoke_length _ _ _
  refine ⟨hlen, ?_⟩
  rintro ⟨e1, h1, e2, h2, t1, t2⟩
  generalize (processNFCReader s now inv).2 = l at hlen h1 h2
  match l, hlen, h1, h2 with
  | [a], _, h1, h2 =>
    simp only [List.mem_singleton] at h1 h2
    rw [h1] at t1
    rw [h2] at t2
    rw [t1] at t2
    exact absurd t2 (by decide)

/-! ## The message history of `display.cpp` -/

theorem addMqttMessage_history (d : Display) (now : Nat) (uid : String) (sensor : Byte)
    (direction : Char) :
    (addMqttMessage d now uid sensor direction).mqttHistory 0
        = { uid := uid, sensor := sensor, direction := direction, timestamp := now } ∧
    (addMqttMessage d now uid sensor direction).mqttHistory 1 = d.mqttHistory 0 ∧
    (addMqttMessage d now uid sensor direction).mqttHistory 2 = d.mqttHistory 1 ∧
    (addMqttMessage d now uid sensor direction).mqttHistory 3 = d.mqttHistory 2 := by
  simp [addMqttMessage, List.foldl, Function.update]

theorem addMqttMessage_history_succ (d : Display) (now : Nat) (uid : String) (sensor : Byte)
    (direction : Char) (i : Nat) (h : i + 1 < 4) :
    (addMqttMessage d now uid sensor direction).mqttHistory ⟨i + 1, h⟩
      = d.mqttHistory ⟨i, by omega⟩ := by
  obtain ⟨-, h1, h2, h3⟩ := addMqttMessage_history d now uid sensor direction
  match i, h with
  | 0, _ => exact h1
  | 1, _ => exact h2
  | 2, _ => exact h3

theorem addMqttMessage_count (d : Display) (now : Nat) (uid : String) (sensor : Byte)
    (direction : Char) :
    (addMqttMessage d now uid sensor direction).mqttHistoryCount
      = if d.mqttHistoryCount < 4 then d.mqttHistoryCount + 1 else d.mqttHistoryCount := by
  simp [addMqttMessage]

theorem insertAll_append (d : Display) (msgs : List Insertion) (m : Insertion) :
    insertAll d (msgs ++ [m])
      = addMqttMessage (insertAll d msgs) m.now m.uid m.sensor m.direction := by
  simp [insertAll, List.foldl_append]

theorem insertAll_count (msgs : List Insertion) :
    (insertAll initialDisplay msgs).mqttHistoryCount = ((min msgs.length 4 : Nat) : Int) := by
  induction msgs using List.reverseRecOn with
  | nil => rfl
  | append_singleton msgs m ih =>
    rw [insertAll_append, addMqttMessage_count, ih]
    simp only [List.length_append, List.length_singleton]
    split <;> omega

theorem insertAll_history (d : Display) (msgs : List Insertion) (i : Fin 4)
    (h : i.val < msgs.length) :
    some ((insertAll d msgs).mqttHistory i)
      = msgs[msgs.length - 1 - i.val]?.map Insertion.record := by
  induction msgs using List.reverseRecOn generalizing i with
  | nil => simp at h
  | append_singleton msgs m ih =>
    rw [insertAll_append]
    obtain ⟨i, hi⟩ := i
    cases i with
    | zero =>
      have h0 := (addMqttMessage_history (insertAll d msgs) m.now m.uid m.sensor
        m.direction).1
      have e : (⟨0, hi⟩ : Fin 4) = 0 := rfl
      rw [e, h0]
      simp [Insertion.record]
    | succ j =>
      rw [addMqttMessage_history_succ _ _ _ _ _ j hi]
      simp only [List.length_append, List.length_singleton] at h ⊢
      rw [ih ⟨j, by omega⟩ (by simpa using h)]
      have e : msgs.length + 1 - 1 - (j + 1) = msgs.length - 1 - j := by omega
      rw [e, List.getElem?_append_left (by omega)]

theorem getMqttHistoryItem_of_lt (d : Display) (i : Nat) (h4 : i < 4)
    (hc : (i : Int) < d.mqttHistoryCount) :
    getMqttHistoryItem d (i : Int) = d.mqttHistory ⟨i, h4⟩ := by
  unfold getMqttHistoryItem
  have h0 : (0 : Int) ≤ (i : Int) := Int.ofNat_nonneg i
  simp [h0, hc, h4]

/-- C12. After any sequence of `n` calls of `addMqttMessage` from the initial state,
`getMqttHistoryCount()` is `min(n, 4)`, and for every `i < min(n, 4)` the record that
`getMqttHistoryItem(i)` returns is the one written for the `(n - i)`-th inserted message
(its uid, sensor and direction, with the time of the insertion): newest first. One more
insertion into a full history leaves the count at 4, puts the new record at index 0 and
moves the records of the indices 0, 1, 2 to 1, 2, 3, so that exactly the oldest one is
dropped. -/
theorem history_holds_last_four_newest_first (msgs : List Insertion) :
    getMqttHistoryCount (insertAll initialDisplay msgs) = ((min msgs.length 4 : Nat) : Int) ∧
    (∀ i : Nat, i < min msgs.length 4 →
      some (getMqttHistoryItem (insertAll initialDisplay msgs) (i : Int))
        = msgs[msgs.length - 1 - i]?.map Insertion.record) ∧
    (∀ m : Insertion, 4 ≤ msgs.length →
      getMqttHistoryCount (insertAll initialDisplay (msgs ++ [m])) = 4 ∧
      getMqttHistoryItem (insertAll initialDisplay (msgs ++ [m])) 0 = m.record ∧
      ∀ i : Nat, i < 3 →
        getMqttHistoryItem (insertAll initialDisplay (msgs ++ [m])) ((i : Int) + 1)
          = getMqttHistoryItem (insertAll initialDisplay msgs) (i : Int)) := by
  have hitem : ∀ (l : List Insertion) (i : Nat) (hi : i < min l.length 4),
      getMqttHistoryItem (insertAll initialDisplay l) (i : Int)
        = (insertAll initialDisplay l).mqttHistory ⟨i, by omega⟩ := by
    intro l i hi
    apply getMqttHistoryItem_of_lt
    rw [insertAll_count]
    exact_mod_cast hi
  refine ⟨insertAll_count msgs, ?_, ?_⟩
  · intro i hi
    rw [hitem msgs i hi]
    exact insertAll_history initialDisplay msgs ⟨i, by omega⟩ (by simp only; omega)
  · intro m hlen
    have hlen' : min (msgs ++ [m]).length 4 = 4 := by
      simp only [List.length_append, List.length_singleton]; omega
    refine ⟨?_, ?_, ?_⟩
    · unfold getMqttHistoryCount
      rw [insertAll_count, hlen']
      rfl
    · have h0 := hitem (msgs ++ [m]) 0 (by omega)
      simp only [Nat.cast_zero] at h0
      rw [h0, insertAll_append]
      exact (addMqttMessage_history _ _ _ _ _).1
    · intro i hi
      have h1 := hitem (msgs ++ [m]) (i + 1) (by omega)
      have h2 := hitem msgs i (by omega)
      simp only [Nat.cast_add, Nat.cast_one] at h1
      rw [h1, h2, insertAll_append]
      exact addMqttMessage_history_succ _ _ _ _ _ i (by omega)

/-- The instance of C12 with five insertions: the history holds the messages 5, 4, 3, 2
and the first one is gone. -/
theorem history_holds_last_four_newest_first_witness :
    getMqttHistoryCount (insertAll initialDisplay
      [⟨10, "A1", 1, 'R'⟩, ⟨20, "B2", 2, 'C'⟩, ⟨30, "C3", 3, 'U'⟩, ⟨40, "D4", 4, 'R'⟩,
        ⟨50, "E5", 5, 'C'⟩]) = 4 ∧
    some (getMqttHistoryItem (insertAll initialDisplay
      [⟨10, "A1", 1, 'R'⟩, ⟨20, "B2", 2, 'C'⟩, ⟨30, "C3", 3, 'U'⟩, ⟨40, "D4", 4, 'R'⟩,
        ⟨50, "E5", 5, 'C'⟩]) 3)
      = some { uid := "B2", sensor := 2, direction := 'C', timestamp := 20 } ∧
    getMqttHistoryItem (insertAll initialDisplay
      ([⟨10, "A1", 1, 'R'⟩, ⟨20, "B2", 2, 'C'⟩, ⟨30, "C3", 3, 'U'⟩, ⟨40, "D4", 4, 'R'⟩]
        ++ [⟨50, "E5", 5, 'C'⟩])) 0
      = { uid := "E5", sensor := 5, direction := 'C', timestamp := 50 } :=
  ⟨(history_holds_last_four_newest_first
      [⟨10, "A1", 1, 'R'⟩, ⟨20, "B2", 2, 'C'⟩, ⟨30, "C3", 3, 'U'⟩, ⟨40, "D4", 4, 'R'⟩,
        ⟨50, "E5", 5, 'C'⟩]).1,
    (history_holds_last_four_newest_first
      [⟨10, "A1", 1, 'R'⟩, ⟨20, "B2", 2, 'C'⟩, ⟨30, "C3", 3, 'U'⟩, ⟨40, "D4", 4, 'R'⟩,
        ⟨50, "E5", 5, 'C'⟩]).2.1 3 (by decide),
    ((history_holds_last_four_newest_first
      [⟨10, "A1", 1, 'R'⟩, ⟨20, "B2", 2, 'C'⟩, ⟨30, "C3", 3, 'U'⟩,
        ⟨40, "D4", 4, 'R'⟩]).2.2 ⟨50, "E5", 5, 'C'⟩ (by decide)).2.1⟩

/-! ## The sequence number of the history -/

theorem updateDisplay_frame (d : Display) (env : DisplayEnv) :
    (updateDisplay d env).1.mqttSequence = d.mqttSequence ∧
    (updateDisplay d env).1.mqttHistory = d.mqttHistory ∧
    (updateDisplay d env).1.mqttHistoryCount = d.mqttHistoryCount ∧
    (updateDisplay d env).1.currentUID = d.currentUID ∧
    (updateDisplay d env).1.currentTagPresent = d.currentTagPresent ∧
    (updateDisplay d env).1.mqttConnected = d.mqttConnected ∧
    (updateDisplay d env).1.mqttBroker = d.mqttBroker ∧
    (updateDisplay d env).1.mqttPort = d.mqttPort ∧
    (updateDisplay d env).1.mqttTopic = d.mqttTopic := by
  unfold updateDisplay
  split
  · exact ⟨rfl, rfl, rfl, rfl, rfl, rfl, rfl, rfl, rfl⟩
  · simp only
    split <;> split <;> split <;> (try split) <;>
      exact ⟨rfl, rfl, rfl, rfl, rfl, rfl, rfl, rfl, rfl⟩

theorem applyOp_sequence (d : Display) (op : DisplayOp) :
    (applyOp d op).mqttSequence
      = if isInsertion op = true then inc32 d.mqttSequence else d.mqttSequence := by
  cases op with
  | addMqttMessage now uid sensor direction => simp [applyOp, isInsertion, addMqttMessage]
  | displayTag env uid present =>
    simp only [applyOp, isInsertion, displayTag]
    exact (updateDisplay_frame _ env).1
  | setMqttStatus connected => rfl
  | setMqttConfig broker port topic => rfl
  | updateDisplay env =>
    simp only [applyOp, isInsertion]
    exact (updateDisplay_frame d env).1
  | getCurrentUID => rfl
  | getCurrentTagPresent => rfl
  | getMqttHistoryCount => rfl
  | getMqttHistoryItem index => rfl

theorem insertions_cons (op : DisplayOp) (ops : List DisplayOp) :
    insertions (op :: ops)
      = (if isInsertion op = true then 1 else 0) + insertions ops := by
  unfold insertions
  cases h : isInsertion op <;> simp [List.filter_cons, h]
  omega

theorem runOps_sequence (d : Display) (ops : List DisplayOp) (hd : d.mqttSequence < U32) :
    (runOps d ops).mqttSequence = (d.mqttSequence + insertions ops) % U32 := by
  induction ops generalizing d with
  | nil =>
    simp only [runOps, List.foldl, insertions, List.filter_nil, List.length_nil, Nat.add_zero]
    exact (Nat.mod_eq_of_lt hd).symm
  | cons op ops ih =>
    have hstep : runOps d (op :: ops) = runOps (applyOp d op) ops := rfl
    rw [hstep, insertions_cons]
    have hs := applyOp_sequence d op
    cases h : isInsertion op
    · rw [h] at hs
      simp only [Bool.false_eq_true, if_false] at hs ⊢
      rw [ih (applyOp d op) (by rw [hs]; exact hd), hs]
      simp
    · rw [h] at hs
      simp only [if_true] at hs ⊢
      have hlt : (applyOp d op).mqttSequence < U32 := by
        rw [hs]; unfold inc32 U32; omega
      rw [ih (applyOp d op) hlt, hs]
      unfold inc32 U32
      omega

theorem insertions_replicate (n : Nat) (op : DisplayOp) (h : isInsertion op = true) :
    insertions (List.replicate n op) = n := by
  induction n with
  | zero => rfl
  | succ n ih =>
    rw [List.replicate_succ, insertions_cons, h, ih]
    simp only [if_true]
    omega

/-- C13 fails as stated: after `2^32` calls of `addMqttMessage` from the initial state
`mqttSequence` is 0 again, the value it has after no insertion; it is `2^32 - 1` one
insertion earlier, so that the last insertion makes it decrease. -/
theorem sequence_repeats_after_wraparound :
    insertions (List.replicate 4294967296 (DisplayOp.addMqttMessage 0 "" 0 'R'))
      = 4294967296 ∧
    insertions ([] : List DisplayOp) = 0 ∧
    (runOps initialDisplay
      (List.replicate 4294967296 (DisplayOp.addMqttMessage 0 "" 0 'R'))).mqttSequence
      = (runOps initialDisplay []).mqttSequence ∧
    (runOps initialDisplay
      (List.replicate 4294967296 (DisplayOp.addMqttMessage 0 "" 0 'R'))).mqttSequence
      < (runOps initialDisplay
          (List.replicate 4294967295 (DisplayOp.addMqttMessage 0 "" 0 'R'))).mqttSequence := by
  have h0 : initialDisplay.mqttSequence < U32 := by decide
  have hi : isInsertion (DisplayOp.addMqttMessage 0 "" 0 'R') = true := rfl
  have e1 := runOps_sequence initialDisplay
    (List.replicate 4294967296 (DisplayOp.addMqttMessage 0 "" 0 'R')) h0
  have e2 := runOps_sequence initialDisplay
    (List.replicate 4294967295 (DisplayOp.addMqttMessage 0 "" 0 'R')) h0
  rw [insertions_replicate _ _ hi] at e1 e2
  have z : initialDisplay.mqttSequence = 0 := rfl
  rw [z] at e1 e2
  have v1 : (0 + 4294967296) % U32 = 0 := by decide
  have v2 : (0 + 4294967295) % U32 = 4294967295 := by decide
  rw [v1] at e1
  rw [v2] at e2
  refine ⟨insertions_replicate _ _ hi, rfl, ?_, ?_⟩
  · rw [e1]; rfl
  · rw [e1, e2]; decide

/-- C13, amended. Every call of `addMqttMessage` increments `mqttSequence` by 1 in
`uint32_t` arithmetic (by exactly 1 below `2^32 - 1`), and no other operation of the display
module (`displayTag`, `setMqttStatus`, `setMqttConfig`, `updateDisplay`, the getters)
changes it. Hence after any sequence of operations from the initial state `mqttSequence` is
the number of insertions modulo `2^32`, and as long as fewer than `2^32` insertions have
been made it is the number of insertions: it does not decrease when more insertions have
been made, and it takes the same value only after the same number of insertions. -/
theorem sequence_counts_insertions (d : Display) (op : DisplayOp) :
    (isInsertion op = true →
      (applyOp d op).mqttSequence = inc32 d.mqttSequence ∧
      (d.mqttSequence + 1 < U32 → (applyOp d op).mqttSequence = d.mqttSequence + 1)) ∧
    (isInsertion op = false → (applyOp d op).mqttSequence = d.mqttSequence) ∧
    (∀ ops : List DisplayOp,
      (runOps initialDisplay ops).mqttSequence = insertions ops % U32) ∧
    (∀ ops : List DisplayOp, insertions ops < U32 →
      (runOps initialDisplay ops).mqttSequence = insertions ops) ∧
    (∀ ops1 ops2 : List DisplayOp, insertions ops1 < U32 → insertions ops2 < U32 →
      (insertions ops1 ≤ insertions ops2 →
        (runOps initialDisplay ops1).mqttSequence
          ≤ (runOps initialDisplay ops2).mqttSequence) ∧
      ((runOps initialDisplay ops1).mqttSequence = (runOps initialDisplay ops2).mqttSequence
        → insertions ops1 = insertions ops2)) := by
  have h0 : initialDisplay.mqttSequence < U32 := by decide
  have hall : ∀ ops : List DisplayOp,
      (runOps initialDisplay ops).mqttSequence = insertions ops % U32 := by
    intro ops
    rw [runOps_sequence initialDisplay ops h0]
    have z : initialDisplay.mqttSequence = 0 := rfl
    rw [z, Nat.zero_add]
  have hlt : ∀ ops : List DisplayOp, insertions ops < U32 →
      (runOps initialDisplay ops).mqttSequence = insertions ops := by
    intro ops h
    rw [hall ops, Nat.mod_eq_of_lt h]
  refine ⟨?_, ?_, hall, hlt, ?_⟩
  · intro h
    have hs := applyOp_sequence d op
    rw [h] at hs
    simp only [if_true] at hs
    refine ⟨hs, ?_⟩
    intro hb
    rw [hs]
    unfold inc32
    exact Nat.mod_eq_of_lt hb
  · intro h
    have hs := applyOp_sequence d op
    rw [h] at hs
    simpa using hs
  · intro ops1 ops2 h1 h2
    rw [hlt ops1 h1, hlt ops2 h2]
    exact ⟨fun h => h, fun h => h⟩

/-- Instances of the amended C13: an insertion and a call of `updateDisplay` on the initial
state, and the sequence number after three insertions mixed with other operations. -/
theorem sequence_counts_insertions_witness :
    (applyOp initialDisplay (DisplayOp.addMqttMessage 10 "A1" 1 'R')).mqttSequence = 1 ∧
    (applyOp initialDisplay (DisplayOp.setMqttStatus true)).mqttSequence = 0 ∧
    (runOps initialDisplay
      [DisplayOp.addMqttMessage 10 "A1" 1 'R', DisplayOp.setMqttStatus true,
        DisplayOp.addMqttMessage 20 "B2" 2 'C', DisplayOp.getMqttHistoryCount,
        DisplayOp.addMqttMessage 30 "C3" 3 'U']).mqttSequence = 3 :=
  ⟨((sequence_counts_insertions initialDisplay
      (DisplayOp.addMqttMessage 10 "A1" 1 'R')).1 rfl).2 (by decide),
    (sequence_counts_insertions initialDisplay (DisplayOp.setMqttStatus true)).2.1 rfl,
    (sequence_counts_insertions initialDisplay (DisplayOp.setMqttStatus true)).2.2.2.1
      [DisplayOp.addMqttMessage 10 "A1" 1 'R', DisplayOp.setMqttStatus true,
        DisplayOp.addMqttMessage 20 "B2" 2 'C', DisplayOp.getMqttHistoryCount,
        DisplayOp.addMqttMessage 30 "C3" 3 'U'] (by decide)⟩

/-! ## The change detection of `updateDisplay` -/

theorem updateDisplay_synced (d : Display) (env : DisplayEnv) :
    Synced (updateDisplay d env).1 env.status := by
  unfold updateDisplay Synced
  by_cases hi : d.displayInitialized = true
  · by_cases h1 : d.currentUID = d.prevUID <;>
    by_cases h2 : d.currentTagPresent = d.prevTagPresent <;>
    by_cases h3 : d.mqttSequence = d.prevMqttSequence <;>
    by_cases h4 : d.mqttConnected = d.prevMqttConnected <;>
    by_cases h5 : env.status.initialized = d.prevNfcInitialized <;>
    by_cases h6 : env.status.totalScans = d.prevTotalScans <;>
    by_cases h7 : env.status.successfulReads = d.prevSuccessfulReads <;>
    by_cases h8 : env.status.failedReads = d.prevFailedReads <;>
    simp [hi, h1, h2, h3, h4, h5, h6, h7, h8]
  · simp [hi]

theorem updateDisplay_of_synced (d : Display) (status : NFCStatus) (env : DisplayEnv)
    (hs : Synced d status)
    (h1 : env.status.totalScans = status.totalScans)
    (h2 : env.status.successfulReads = status.successfulReads)
    (h3 : env.status.failedReads = status.failedReads)
    (h4 : env.status.initialized = status.initialized) :
    updateDisplay d env = (d, []) := by
  obtain ⟨a, b, c, e, f, g, h, i, j⟩ := hs
  unfold updateDisplay
  simp [a, b, c, e, f, g, h, i, j, h1, h2, h3, h4]

/-- C14. For every display state, after any call of `updateDisplay` (the first or a later
one), an immediately following call of `updateDisplay` for which the reader status (the
initialised flag and the three counters) is the same, with no change to the tag, the
history or the connection flag in between, issues no draw call at all and leaves the state,
every `prev` field included, as it is. -/
theorem second_updateDisplay_draws_nothing (d : Display) (env env2 : DisplayEnv)
    (h1 : env2.status.totalScans = env.status.totalScans)
    (h2 : env2.status.successfulReads = env.status.successfulReads)
    (h3 : env2.status.failedReads = env.status.failedReads)
    (h4 : env2.status.initialized = env.status.initialized) :
    (updateDisplay (updateDisplay d env).1 env2).2 = [] ∧
    ((updateDisplay (updateDisplay d env).1 env2).2.flatMap DrawStep.calls) = [] ∧
    (updateDisplay (updateDisplay d env).1 env2).1 = (updateDisplay d env).1 := by
  rw [updateDisplay_of_synced _ env.status env2 (updateDisplay_synced d env) h1 h2 h3 h4]
  exact ⟨rfl, rfl, rfl⟩

/-- Instances of C14: the call after the first `updateDisplay`, and the call after a later
`updateDisplay` that redrew the counters. -/
theorem second_updateDisplay_draws_nothing_witness :
    (updateDisplay (updateDisplay initialDisplay envA).1 envA).2 = [] ∧
    (updateDisplay (updateDisplay drawnDisplay envB).1 envB).2 = [] :=
  ⟨(second_updateDisplay_draws_nothing initialDisplay envA envA rfl rfl rfl rfl).1,
    (second_updateDisplay_draws_nothing drawnDisplay envB envB rfl rfl rfl rfl).1⟩

/-- C15. On every `updateDisplay` call after the first, if at least one of `totalScans`,
`successfulReads`, `failedReads` differs from its `prev` value while `currentUID`,
`currentTagPresent`, `mqttSequence`, `mqttConnected` and the initialised flag of the reader
equal their `prev` values, then the call consists of exactly one call of `updateScanStats`
(no `updateStatusArea`, `updateLocalTagArea` or `updateMqttHistoryArea`), whose only fills
are the three digit boxes, and afterwards the three `prev` counters equal the current
counters, every other field being unchanged. -/
theorem counters_only_change_uses_digit_path (d : Display) (env : DisplayEnv)
    (hinit : d.displayInitialized = true)
    (hstats : env.status.totalScans ≠ d.prevTotalScans ∨
      env.status.successfulReads ≠ d.prevSuccessfulReads ∨
      env.status.failedReads ≠ d.prevFailedReads)
    (huid : d.currentUID = d.prevUID) (htag : d.currentTagPresent = d.prevTagPresent)
    (hseq : d.mqttSequence = d.prevMqttSequence)
    (hconn : d.mqttConnected = d.prevMqttConnected)
    (hnfc : env.status.initialized = d.prevNfcInitialized) :
    (updateDisplay d env).2 = [DrawStep.updateScanStats (updateScanStats env.status)] ∧
    updateScanStats env.status =
      [TftCall.fillRect 50 205 40 8 COLOR_BLACK,
        TftCall.fillRect 120 205 60 8 COLOR_BLACK,
        TftCall.fillRect 222 205 100 8 COLOR_BLACK,
        TftCall.setTextSize 1,
        TftCall.setCursor 50 205, TftCall.setTextColor COLOR_GREEN,
        TftCall.printNumber env.status.totalScans,
        TftCall.setCursor 120 205, TftCall.setTextColor COLOR_GREEN,
        TftCall.printNumber env.status.successfulReads,
        TftCall.setCursor 222 205, TftCall.setTextColor COLOR_GREEN,
        TftCall.printNumber env.status.failedReads] ∧
    (updateDisplay d env).1 =
      { d with
        prevTotalScans := env.status.totalScans
        prevSuccessfulReads := env.status.successfulReads
        prevFailedReads := env.status.failedReads } := by
  have hs : (decide (env.status.totalScans ≠ d.prevTotalScans) ||
      decide (env.status.successfulReads ≠ d.prevSuccessfulReads) ||
      decide (env.status.failedReads ≠ d.prevFailedReads)) = true := by
    simpa [or_assoc] using hstats
  refine ⟨?_, rfl, ?_⟩
  · unfold updateDisplay
    simp only [hinit, huid, htag, hseq, hconn, hnfc, hs]
    simp
  · unfold updateDisplay
    simp only [hinit, huid, htag, hseq, hconn, hnfc, hs]
    simp
    exact ⟨huid, htag, hconn, hinit, hseq⟩

/-- The instance of C15 on the drawn display when one more failed scan has been counted. -/
theorem counters_only_change_uses_digit_path_witness :
    (updateDisplay drawnDisplay envB).2 = [DrawStep.updateScanStats (updateScanStats statusB)] ∧
    (updateDisplay drawnDisplay envB).1.prevTotalScans = 13 ∧
    (updateDisplay drawnDisplay envB).1.prevFailedReads = 3 := by
  have h := counters_only_change_uses_digit_path drawnDisplay envB (by decide)
    (Or.inl (by decide)) (by decide) (by decide) (by decide) (by decide) (by decide)
  refine ⟨h.1, ?_, ?_⟩
  · rw [h.2.2]; rfl
  · rw [h.2.2]; rfl

/-- C16 fails as stated: the display was drawn with broker `192.168.1.10:1883` and topic
`rfid/in`; after `setMqttConfig` has changed the broker, the port and the topic, a call of
`updateDisplay` with nothing else changed draws nothing, and a call with a changed counter
takes the digit-only path `updateScanStats`; `updateStatusArea` is called in neither. -/
theorem config_change_does_not_redraw_status_area :
    drawnDisplay.displayInitialized = true ∧
    drawnDisplay.mqttBroker = "192.168.1.10" ∧ drawnDisplay.mqttPort = 1883 ∧
    drawnDisplay.mqttTopic = "rfid/in" ∧
    (setMqttConfig drawnDisplay "10.0.0.5" 8883 "rfid/other").mqttBroker = "10.0.0.5" ∧
    (setMqttConfig drawnDisplay "10.0.0.5" 8883 "rfid/other").mqttPort = 8883 ∧
    (setMqttConfig drawnDisplay "10.0.0.5" 8883 "rfid/other").mqttTopic = "rfid/other" ∧
    (updateDisplay (setMqttConfig drawnDisplay "10.0.0.5" 8883 "rfid/other") envA).2 = [] ∧
    (updateDisplay (setMqttConfig drawnDisplay "10.0.0.5" 8883 "rfid/other") envB).2
      = [DrawStep.updateScanStats (updateScanStats statusB)] := by
  decide

/-- C16, amended. On every `updateDisplay` call after the first, if `mqttConnected` or the
initialised flag of the reader differs from its `prev` value, `updateStatusArea` is called
exactly once (a full redraw, counters included), the digit-only path `updateScanStats` is
not used, and afterwards the two `prev` flags and the three `prev` counters equal the
current values. The broker host, the port and the topic set by `setMqttConfig` are not
tracked: when every `prev` field equals the value it tracks, a call of `updateDisplay`
after `setMqttConfig` draws nothing. -/
theorem status_flag_change_redraws_status_area (d : Display) (env : DisplayEnv)
    (hinit : d.displayInitialized = true) :
    (d.mqttConnected ≠ d.prevMqttConnected ∨ env.status.initialized ≠ d.prevNfcInitialized →
      (updateDisplay d env).2.filter DrawStep.isStatusArea
        = [DrawStep.updateStatusArea (updateStatusArea d env)] ∧
      (updateDisplay d env).2.filter DrawStep.isScanStats = [] ∧
      (updateDisplay d env).1.prevMqttConnected = d.mqttConnected ∧
      (updateDisplay d env).1.prevNfcInitialized = env.status.initialized ∧
      (updateDisplay d env).1.prevTotalScans = env.status.totalScans ∧
      (updateDisplay d env).1.prevSuccessfulReads = env.status.successfulReads ∧
      (updateDisplay d env).1.prevFailedReads = env.status.failedReads) ∧
    (Synced d env.status → ∀ (broker : String) (port : Nat) (topic : String),
      (updateDisplay (setMqttConfig d broker port topic) env).2 = []) := by
  constructor
  · intro hchg
    have hflag : (decide (d.mqttConnected ≠ d.prevMqttConnected) ||
        decide (env.status.initialized ≠ d.prevNfcInitialized)) = true := by
      simpa using hchg
    unfold updateDisplay
    by_cases h1 : d.currentUID = d.prevUID <;>
    by_cases h2 : d.currentTagPresent = d.prevTagPresent <;>
    by_cases h3 : d.mqttSequence = d.prevMqttSequence <;>
    by_cases h4 : d.mqttConnected = d.prevMqttConnected <;>
    by_cases h5 : env.status.initialized = d.prevNfcInitialized <;>
    simp [hinit, h1, h2, h3, h4, h5, DrawStep.isStatusArea, DrawStep.isScanStats,
      List.filter_cons, updateStatusArea] at hflag ⊢
  · intro hs broker port topic
    have hs2 : Synced (setMqttConfig d broker port topic) env.status := hs
    rw [updateDisplay_of_synced _ env.status env hs2 rfl rfl rfl rfl]

/-- Instances of the amended C16 on the drawn display: the call after the connection flag
has changed, with a changed counter at the same time, and the call after `setMqttConfig`
alone. -/
theorem status_flag_change_redraws_status_area_witness :
    ((updateDisplay (setMqttStatus drawnDisplay true) envB).2.filter DrawStep.isStatusArea
        = [DrawStep.updateStatusArea (updateStatusArea (setMqttStatus drawnDisplay true) envB)]
      ∧ (updateDisplay (setMqttStatus drawnDisplay true) envB).2.filter DrawStep.isScanStats
        = []) ∧
    (updateDisplay (setMqttConfig drawnDisplay "10.0.0.5" 8883 "rfid/other") envA).2 = [] := by
  have h := (status_flag_change_redraws_status_area (setMqttStatus drawnDisplay true) envB
    (by decide)).1 (Or.inl (by decide))
  exact ⟨⟨h.1, h.2.1⟩,
    (status_flag_change_redraws_status_area drawnDisplay envA (by decide)).2
      (updateDisplay_synced _ envA) "10.0.0.5" 8883 "rfid/other"⟩

/-! ## The MQTT handler and the history -/

/-- C17. For every state and every call `publishTag(uid, event)`, whether the client or the
configuration is missing, the client is disconnected, the publish is rejected or it
succeeds, the statics of the display module are unchanged, hence the history entries,
`getMqttHistoryCount()` and `mqttSequence`; so are they by `displayTag`, `setMqttStatus`,
`setMqttConfig`, `updateDisplay` and `reconnectMQTT`. -/
theorem publishTag_leaves_history (sys : System) (connected publishOk : Bool)
    (uid event : String) :
    (publishTag sys connected publishOk uid event).1.display = sys.display ∧
    (publishTag sys connected publishOk uid event).1.display.mqttHistory
      = sys.display.mqttHistory ∧
    getMqttHistoryCount (publishTag sys connected publishOk uid event).1.display
      = getMqttHistoryCount sys.display ∧
    (publishTag sys connected publishOk uid event).1.display.mqttSequence
      = sys.display.mqttSequence ∧
    (∀ (d : Display) (op : DisplayOp), isInsertion op = false →
      (applyOp d op).mqttHistory = d.mqttHistory ∧
      getMqttHistoryCount (applyOp d op) = getMqttHistoryCount d ∧
      (applyOp d op).mqttSequence = d.mqttSequence) ∧
    (∀ c ok : Bool,
      (reconnectMQTT sys c ok).display.mqttHistory = sys.display.mqttHistory ∧
      getMqttHistoryCount (reconnectMQTT sys c ok).display = getMqttHistoryCount sys.display ∧
      (reconnectMQTT sys c ok).display.mqttSequence = sys.display.mqttSequence) := by
  have hd : (publishTag sys connected publishOk uid event).1.display = sys.display := by
    unfold publishTag
    split
    · split
      · rfl
      · split <;> rfl
    · rfl
  refine ⟨hd, by rw [hd], by rw [hd], by rw [hd], ?_, ?_⟩
  · intro d op hop
    cases op with
    | addMqttMessage now uid sensor direction => simp [isInsertion] at hop
    | displayTag env uid present =>
      obtain ⟨a, b, c, -⟩ := updateDisplay_frame
        { d with currentUID := uid, currentTagPresent := present } env
      exact ⟨b, c, a⟩
    | setMqttStatus connected => exact ⟨rfl, rfl, rfl⟩
    | setMqttConfig broker port topic => exact ⟨rfl, rfl, rfl⟩
    | updateDisplay env =>
      obtain ⟨a, b, c, -⟩ := updateDisplay_frame d env
      exact ⟨b, c, a⟩
    | getCurrentUID => exact ⟨rfl, rfl, rfl⟩
    | getCurrentTagPresent => exact ⟨rfl, rfl, rfl⟩
    | getMqttHistoryCount => exact ⟨rfl, rfl, rfl⟩
    | getMqttHistoryItem index => exact ⟨rfl, rfl, rfl⟩
  · intro c ok
    unfold reconnectMQTT
    split
    · split <;> exact ⟨rfl, rfl, rfl⟩
    · exact ⟨rfl, rfl, rfl⟩

/-- Instances of C17: a publish that succeeds on the ready system, and a call of
`setMqttStatus`. -/
theorem publishTag_leaves_history_witness :
    (publishTag readySystem true true "ABCD1234ABCD1234" "Read").1.display.mqttSequence = 0 ∧
    (applyOp initialDisplay (DisplayOp.setMqttStatus true)).mqttHistory
      = initialDisplay.mqttHistory :=
  ⟨(publishTag_leaves_history readySystem true true "ABCD1234ABCD1234" "Read").2.2.2.1,
    ((publishTag_leaves_history readySystem true true "ABCD1234ABCD1234" "Read").2.2.2.2.1
      initialDisplay (DisplayOp.setMqttStatus true) rfl).1⟩

/-- C18. For every inbound payload that fails JSON parsing, or that parses but has no
string member `u` or no string member `R`, `mqttCallback` leaves the state unchanged, hence
the history entries, `getMqttHistoryCount()` and `mqttSequence`. -/
theorem malformed_payload_leaves_history (sys : System) (now : Nat) (topic : String)
    (p : Parsed) (h : p.error = true ∨ p.u = none ∨ p.R = none) :
    (mqttCallback sys now topic p).display.mqttHistory = sys.display.mqttHistory ∧
    getMqttHistoryCount (mqttCallback sys now topic p).display
      = getMqttHistoryCount sys.display ∧
    (mqttCallback sys now topic p).display.mqttSequence = sys.display.mqttSequence ∧
    mqttCallback sys now topic p = sys := by
  have e : mqttCallback sys now topic p = sys := by
    unfold mqttCallback
    rcases h with h | h | h
    · simp [h]
    · split
      · rfl
      · simp [h]
    · split
      · rfl
      · cases hu : p.u <;> simp [h]
  rw [e]
  exact ⟨rfl, rfl, rfl, rfl⟩

/-- Instances of C18: a payload that does not parse, one without a string `u`, one without
a string `R`. -/
theorem malformed_payload_leaves_history_witness :
    mqttCallback readySystem 100 "rfid/Read"
      { error := true, u := none, s := 0, R := none } = readySystem ∧
    mqttCallback readySystem 100 "rfid/Read"
      { error := false, u := none, s := 7, R := some "R" } = readySystem ∧
    mqttCallback readySystem 100 "rfid/Read"
      { error := false, u := some "ABCD1234ABCD1234", s := 7, R := none } = readySystem :=
  ⟨(malformed_payload_leaves_history readySystem 100 "rfid/Read"
      { error := true, u := none, s := 0, R := none } (Or.inl rfl)).2.2.2,
    (malformed_payload_leaves_history readySystem 100 "rfid/Read"
      { error := false, u := none, s := 7, R := some "R" } (Or.inr (Or.inl rfl))).2.2.2,
    (malformed_payload_leaves_history readySystem 100 "rfid/Read"
      { error := false, u := some "ABCD1234ABCD1234", s := 7, R := none }
      (Or.inr (Or.inr rfl))).2.2.2⟩

theorem addMqttMessage_inv (P : Char → Prop) (d : Display) (now : Nat) (uid : String)
    (sensor : Byte) (direction : Char) (hd : HistoryInv P d) (hp : P direction) :
    HistoryInv P (addMqttMessage d now uid sensor direction) := by
  obtain ⟨h0, h4, hall⟩ := hd
  refine ⟨?_, ?_, ?_⟩
  · rw [addMqttMessage_count]; split <;> omega
  · rw [addMqttMessage_count]; split <;> omega
  · intro i hi
    rw [addMqttMessage_count] at hi
    obtain ⟨i, hlt⟩ := i
    cases i with
    | zero =>
      have e : (⟨0, hlt⟩ : Fin 4) = 0 := rfl
      rw [e, (addMqttMessage_history d now uid sensor direction).1]
      exact hp
    | succ j =>
      rw [addMqttMessage_history_succ d now uid sensor direction j hlt]
      apply hall
      simp only [Nat.cast_add, Nat.cast_one] at hi ⊢
      split at hi <;> omega

theorem mqttCallback_inv (P : Char → Prop) (sys : System) (now : Nat) (topic : String)
    (p : Parsed) (hd : HistoryInv P sys.display) (hp : ∀ r, accepts p r → P (firstChar r)) :
    HistoryInv P (mqttCallback sys now topic p).display := by
  unfold mqttCallback
  cases he : p.error
  · cases hu : p.u with
    | none => simpa using hd
    | some uid =>
      cases hr : p.R with
      | none => simpa using hd
      | some dirStr =>
        simp only [Bool.false_eq_true, if_false]
        exact addMqttMessage_inv P _ _ _ _ _ hd (hp dirStr ⟨he, by simp [hu], hr⟩)
  · simpa using hd

theorem runCallbacks_inv (P : Char → Prop) (calls : List (Nat × String × Parsed))
    (sys : System) (hd : HistoryInv P sys.display)
    (hp : ∀ c ∈ calls, ∀ r, accepts c.2.2 r → P (firstChar r)) :
    HistoryInv P (runCallbacks sys calls).display := by
  induction calls generalizing sys with
  | nil => exact hd
  | cons c rest ih =>
    have e : runCallbacks sys (c :: rest) = runCallbacks (mqttCallback sys c.1 c.2.1 c.2.2) rest :=
      rfl
    rw [e]
    apply ih
    · exact mqttCallback_inv P sys c.1 c.2.1 c.2.2 hd (hp c (List.mem_cons_self _ _))
    · intro c2 hc2
      exact hp c2 (List.mem_cons_of_mem _ hc2)

theorem initialSystem_inv (P : Char → Prop) : HistoryInv P initialSystem.display := by
  refine ⟨by decide, by decide, ?_⟩
  intro i hi
  have : initialSystem.display.mqttHistoryCount = 0 := rfl
  rw [this] at hi
  have := Int.ofNat_nonneg i.val
  omega

theorem held_direction (P : Char → Prop) (d : Display) (hd : HistoryInv P d) (i : Int)
    (h0 : 0 ≤ i) (hi : i < getMqttHistoryCount d) :
    P (getMqttHistoryItem d i).direction := by
  obtain ⟨-, h4, hall⟩ := hd
  have hi2 : i < d.mqttHistoryCount := hi
  have hlt : i.toNat < 4 := by omega
  unfold getMqttHistoryItem
  simp only [h0, hi2, and_self, if_true, hlt, dif_pos]
  apply hall
  simp only
  omega

/-- C19. For every uid string, every configured `sensor_id` and every event among `Read`,
`Continuing`, `Unread`, the document that `publishTag(uid, event)` builds is
`u = uid, s = sensor_id, R = code`; when its payload is delivered to `mqttCallback` and the
JSON library parses it back to that document (it fits the 200-byte document), the callback
puts at the head of the history a record with the same uid, `sensor = sensor_id` and
direction `R`, `C` or `U` respectively, which `getMqttHistoryItem(0)` returns. -/
theorem published_payload_echo_inserts_record
    (serializeJson : TagDoc → String) (deserializeJson : String → Parsed)
    (sys : System) (cfg : Config) (publishOk : Bool) (uid event : String) (code : Char)
    (now : Nat) (topic : String)
    (hclient : sys.mqtt.mqttClient = true) (hcfg : sys.mqtt.config = some cfg)
    (hcount : 0 ≤ sys.display.mqttHistoryCount)
    (hevent : (event = "Read" ∧ code = 'R') ∨ (event = "Continuing" ∧ code = 'C') ∨
      (event = "Unread" ∧ code = 'U'))
    (hrt : deserializeJson
        (serializeJson { u := uid, s := cfg.sensor_id, R := some (String.singleton code) })
      = Parsed.ofDoc { u := uid, s := cfg.sensor_id, R := some (String.singleton code) }) :
    ∃ pub, (publishTag sys true publishOk uid event).2 = some pub ∧
      pub.doc = { u := uid, s := cfg.sensor_id, R := some (String.singleton code) } ∧
      pub.topic = cfg.mqtt_base_topic ++ "/" ++ event ∧
      pub.accepted = publishOk ∧
      getMqttHistoryItem
          (mqttCallback (publishTag sys true publishOk uid event).1 now topic
            (deserializeJson (serializeJson pub.doc))).display 0
        = { uid := uid, sensor := cfg.sensor_id, direction := code, timestamp := now } ∧
      (mqttCallback (publishTag sys true publishOk uid event).1 now topic
          (deserializeJson (serializeJson pub.doc))).display.mqttHistory 0
        = { uid := uid, sensor := cfg.sensor_id, direction := code, timestamp := now } := by
  have hcode : eventCode event = some (String.singleton code) := by
    rcases hevent with ⟨h1, h2⟩ | ⟨h1, h2⟩ | ⟨h1, h2⟩ <;> rw [h1, h2] <;> decide
  have hfirst : firstChar (String.singleton code) = code := rfl
  have hpub : publishTag sys true publishOk uid event =
      (if publishOk then
        ({ sys with mqtt := { sys.mqtt with mqttPublished := inc32 sys.mqtt.mqttPublished } },
          some { topic := cfg.mqtt_base_topic ++ "/" ++ event,
                 doc := { u := uid, s := cfg.sensor_id, R := some (String.singleton code) },
                 accepted := true })
      else (sys, some { topic := cfg.mqtt_base_topic ++ "/" ++ event,
                        doc := { u := uid, s := cfg.sensor_id,
                                 R := some (String.singleton code) },
                        accepted := false })) := by
    unfold publishTag
    rw [hclient, hcfg]
    simp [hcode]
  have hdisp : (publishTag sys true publishOk uid event).1.display = sys.display := by
    rw [hpub]; split <;> rfl
  have key : ∀ s2 : System, s2.display = sys.display →
      getMqttHistoryItem (mqttCallback s2 now topic
          (Parsed.ofDoc { u := uid, s := cfg.sensor_id,
                          R := some (String.singleton code) })).display 0
        = { uid := uid, sensor := cfg.sensor_id, direction := code, timestamp := now } ∧
      (mqttCallback s2 now topic
          (Parsed.ofDoc { u := uid, s := cfg.sensor_id,
                          R := some (String.singleton code) })).display.mqttHistory 0
        = { uid := uid, sensor := cfg.sensor_id, direction := code, timestamp := now } := by
    intro s2 hs2
    have hm : (mqttCallback s2 now topic
        (Parsed.ofDoc { u := uid, s := cfg.sensor_id,
                        R := some (String.singleton code) })).display
        = addMqttMessage s2.display now uid cfg.sensor_id code := by
      simp [mqttCallback, Parsed.ofDoc, hfirst]
    rw [hm]
    have h0 := (addMqttMessage_history s2.display now uid cfg.sensor_id code).1
    refine ⟨?_, h0⟩
    have hc : ((0 : Nat) : Int) < (addMqttMessage s2.display now uid cfg.sensor_id
        code).mqttHistoryCount := by
      rw [addMqttMessage_count, hs2]
      split <;> omega
    have := getMqttHistoryItem_of_lt _ 0 (by decide) hc
    simp only [Nat.cast_zero] at this
    rw [this]
    exact h0
  cases publishOk with
  | true =>
    rw [hpub]
    refine ⟨_, rfl, rfl, rfl, rfl, ?_⟩
    simp only [if_true]
    rw [hrt]
    exact key _ rfl
  | false =>
    rw [hpub]
    refine ⟨_, rfl, rfl, rfl, rfl, ?_⟩
    simp only [Bool.false_eq_true, if_false]
    rw [hrt]
    exact key _ rfl

/-- The instance of C19 on the ready system (sensor 7) with `uid = ABCD1234ABCD1234` and the
event `Read`, the JSON library being the stand-in that knows this payload. -/
theorem published_payload_echo_inserts_record_witness :
    ∃ pub, (publishTag readySystem true true "ABCD1234ABCD1234" "Read").2 = some pub ∧
      pub.doc = { u := "ABCD1234ABCD1234", s := 7, R := some "R" } ∧
      getMqttHistoryItem
          (mqttCallback (publishTag readySystem true true "ABCD1234ABCD1234" "Read").1 500
            "rfid/Read" (exampleDeserializeJson (exampleSerializeJson pub.doc))).display 0
        = { uid := "ABCD1234ABCD1234", sensor := 7, direction := 'R', timestamp := 500 } := by
  obtain ⟨pub, h1, h2, -, -, h3, -⟩ :=
    published_payload_echo_inserts_record exampleSerializeJson exampleDeserializeJson
      readySystem exampleConfig true "ABCD1234ABCD1234" "Read" 'R' 500 "rfid/Read"
      rfl rfl (by decide) (Or.inl ⟨rfl, rfl⟩) (by decide)
  exact ⟨pub, h1, h2, h3⟩

/-- C20 fails as stated: a payload whose string `R` is `X` (such as the text
`u = ABCD1234ABCD1234, s = 7, R = X` in JSON) is accepted by `mqttCallback`, after which the
one record held in the history has the direction code `X`; a payload whose string `R` is
empty leaves the NUL character as direction code. -/
theorem unknown_direction_code_is_stored :
    getMqttHistoryCount (mqttCallback initialSystem 100 "rfid/Read"
      { error := false, u := some "ABCD1234ABCD1234", s := 7, R := some "X" }).display = 1 ∧
    (getMqttHistoryItem (mqttCallback initialSystem 100 "rfid/Read"
      { error := false, u := some "ABCD1234ABCD1234", s := 7, R := some "X" }).display
      0).direction = 'X' ∧
    'X' ∉ ['R', 'C', 'U'] ∧
    (getMqttHistoryItem (mqttCallback initialSystem 100 "rfid/Read"
      { error := false, u := some "ABCD1234ABCD1234", s := 7, R := some "" }).display
      0).direction = Char.ofNat 0 ∧
    Char.ofNat 0 ∉ ['R', 'C', 'U'] := by
  decide

/-- C20, amended. In every state reached from the initial state by any sequence of
`mqttCallback` calls on arbitrary payloads, every record held in the history (indices
`0 .. getMqttHistoryCount() - 1`) has as direction code the first character of the string
`R` of one of the payloads that the callback accepted (the NUL character when that string is
empty); the code is in `R`, `C`, `U` whenever the string `R` of every accepted payload
starts with one of these letters. -/
theorem held_directions_come_from_payloads (calls : List (Nat × String × Parsed)) :
    (∀ i : Int, 0 ≤ i → i < getMqttHistoryCount (runCallbacks initialSystem calls).display →
      ∃ c ∈ calls, ∃ r, accepts c.2.2 r ∧
        (getMqttHistoryItem (runCallbacks initialSystem calls).display i).direction
          = firstChar r) ∧
    ((∀ c ∈ calls, ∀ r, accepts c.2.2 r → firstChar r ∈ ['R', 'C', 'U']) →
      ∀ i : Int, 0 ≤ i → i < getMqttHistoryCount (runCallbacks initialSystem calls).display →
        (getMqttHistoryItem (runCallbacks initialSystem calls).display i).direction
          ∈ ['R', 'C', 'U']) := by
  constructor
  · intro i h0 hi
    have hinv := runCallbacks_inv
      (fun ch => ∃ c ∈ calls, ∃ r, accepts c.2.2 r ∧ ch = firstChar r) calls initialSystem
      (initialSystem_inv _) (fun c hc r hr => ⟨c, hc, r, hr, rfl⟩)
    exact held_direction _ _ hinv i h0 hi
  · intro hall i h0 hi
    have hinv := runCallbacks_inv (fun ch => ch ∈ ['R', 'C', 'U']) calls initialSystem
      (initialSystem_inv _) hall
    exact held_direction _ _ hinv i h0 hi

/-- The instance of the amended C20 with the payloads of a `Read` and of an `Unread`
event and one payload that does not parse. -/
theorem held_directions_come_from_payloads_witness :
    (getMqttHistoryItem (runCallbacks initialSystem
      [(100, "rfid/Read", { error := false, u := some "A1", s := 7, R := some "R" }),
        (200, "rfid/x", { error := true, u := none, s := 0, R := none }),
        (300, "rfid/Unread", { error := false, u := some "A1", s := 7, R := some "U" })]).display
      1).direction ∈ ['R', 'C', 'U'] :=
  (held_directions_come_from_payloads
    [(100, "rfid/Read", { error := false, u := some "A1", s := 7, R := some "R" }),
      (200, "rfid/x", { error := true, u := none, s := 0, R := none }),
      (300, "rfid/Unread", { error := false, u := some "A1", s := 7, R := some "U" })]).2
    (by
      intro c hc r hr
      simp only [List.mem_cons, List.mem_singleton, List.not_mem_nil, or_false] at hc
      obtain ⟨he, -, hR⟩ := hr
      rcases hc with rfl | rfl | rfl
      · simp only [Option.some.injEq] at hR
        rw [← hR]; decide
      · exact absurd he (by decide)
      · simp only [Option.some.injEq] at hR
        rw [← hR]; decide)
    1 (by decide) (by decide)

/-! ## Which regions `updateDisplay` renders -/

/-- C21. On every `updateDisplay` call after the first: `updateLocalTagArea` is called exactly
once if `currentUID ≠ prevUID` or `currentTagPresent ≠ prevTagPresent` and not at all
otherwise; `updateMqttHistoryArea` is called exactly once if `mqttSequence ≠ prevMqttSequence`
and not at all otherwise; and after the call the `prev` fields of a region hold the current
values if the region was rendered and their old values if it was not: `prevUID` and
`prevTagPresent` for `updateLocalTagArea`, `prevMqttSequence` for `updateMqttHistoryArea`,
the three `prev` counters for `updateScanStats` or `updateStatusArea` (either draws the
counters), `prevMqttConnected` and `prevNfcInitialized` for `updateStatusArea`. -/
theorem regions_rendered_and_prev_fields (d : Display) (env : DisplayEnv)
    (hinit : d.displayInitialized = true) :
    ((updateDisplay d env).2.filter DrawStep.isLocalTagArea =
      if d.currentUID ≠ d.prevUID ∨ d.currentTagPresent ≠ d.prevTagPresent then
        [DrawStep.updateLocalTagArea (updateLocalTagArea d)]
      else []) ∧
    ((updateDisplay d env).2.filter DrawStep.isMqttHistoryArea =
      if d.mqttSequence ≠ d.prevMqttSequence then
        [DrawStep.updateMqttHistoryArea (updateMqttHistoryArea d)]
      else []) ∧
    ((updateDisplay d env).1.prevUID =
      if (updateDisplay d env).2.any DrawStep.isLocalTagArea then d.currentUID
      else d.prevUID) ∧
    ((updateDisplay d env).1.prevTagPresent =
      if (updateDisplay d env).2.any DrawStep.isLocalTagArea then d.currentTagPresent
      else d.prevTagPresent) ∧
    ((updateDisplay d env).1.prevMqttSequence =
      if (updateDisplay d env).2.any DrawStep.isMqttHistoryArea then d.mqttSequence
      else d.prevMqttSequence) ∧
    ((updateDisplay d env).1.prevTotalScans =
      if (updateDisplay d env).2.any DrawStep.isScanStats ||
          (updateDisplay d env).2.any DrawStep.isStatusArea then env.status.totalScans
      else d.prevTotalScans) ∧
    ((updateDisplay d env).1.prevSuccessfulReads =
      if (updateDisplay d env).2.any DrawStep.isScanStats ||
          (updateDisplay d env).2.any DrawStep.isStatusArea then env.status.successfulReads
      else d.prevSuccessfulReads) ∧
    ((updateDisplay d env).1.prevFailedReads =
      if (updateDisplay d env).2.any DrawStep.isScanStats ||
          (updateDisplay d env).2.any DrawStep.isStatusArea then env.status.failedReads
      else d.prevFailedReads) ∧
    ((updateDisplay d env).1.prevMqttConnected =
      if (updateDisplay d env).2.any DrawStep.isStatusArea then d.mqttConnected
      else d.prevMqttConnected) ∧
    ((updateDisplay d env).1.prevNfcInitialized =
      if (updateDisplay d env).2.any DrawStep.isStatusArea then env.status.initialized
      else d.prevNfcInitialized) ∧
    (updateDisplay d env).1.displayInitialized = true := by
  have ht : (decide (d.currentUID ≠ d.prevUID) ||
      decide (d.currentTagPresent ≠ d.prevTagPresent)) =
      decide (d.currentUID ≠ d.prevUID ∨ d.currentTagPresent ≠ d.prevTagPresent) := by
    simp
  have hs : (decide (env.status.totalScans ≠ d.prevTotalScans) ||
      decide (env.status.successfulReads ≠ d.prevSuccessfulReads) ||
      decide (env.status.failedReads ≠ d.prevFailedReads)) =
      decide (env.status.totalScans ≠ d.prevTotalScans ∨
        env.status.successfulReads ≠ d.prevSuccessfulReads ∨
        env.status.failedReads ≠ d.prevFailedReads) := by
    simp only [Bool.decide_or, Bool.or_assoc]
  unfold updateDisplay
  simp only [hinit, ht, hs]
  by_cases h1 : d.currentUID ≠ d.prevUID ∨ d.currentTagPresent ≠ d.prevTagPresent <;>
  by_cases h3 : d.mqttSequence = d.prevMqttSequence <;>
  by_cases h4 : d.mqttConnected = d.prevMqttConnected <;>
  by_cases h5 : env.status.initialized = d.prevNfcInitialized <;>
  by_cases h6 : env.status.totalScans ≠ d.prevTotalScans ∨
        env.status.successfulReads ≠ d.prevSuccessfulReads ∨
        env.status.failedReads ≠ d.prevFailedReads <;>
  simp [hinit, h1, h3, h4, h5, h6, DrawStep.isLocalTagArea,
    DrawStep.isMqttHistoryArea, DrawStep.isStatusArea, DrawStep.isScanStats,
    List.filter_cons, updateMqttHistoryArea]

/-- The instance of C21 on the drawn display after a tag has been handed over: only
`updateLocalTagArea` is called, `prevUID` takes the new identifier and `prevMqttSequence`
and the `prev` counters keep their values. -/
theorem regions_rendered_and_prev_fields_witness :
    (updateDisplay drawnDisplayWithTag envA).2.filter DrawStep.isLocalTagArea
      = [DrawStep.updateLocalTagArea (updateLocalTagArea drawnDisplayWithTag)] ∧
    (updateDisplay drawnDisplayWithTag envA).2.filter DrawStep.isMqttHistoryArea = [] ∧
    (updateDisplay drawnDisplayWithTag envA).1.prevUID = "ABCD1234ABCD1234" ∧
    (updateDisplay drawnDisplayWithTag envA).1.prevMqttSequence
      = drawnDisplayWithTag.prevMqttSequence ∧
    (updateDisplay drawnDisplayWithTag envA).1.prevTotalScans
      = drawnDisplayWithTag.prevTotalScans := by
  have h := regions_rendered_and_prev_fields drawnDisplayWithTag envA (by decide)
  exact ⟨h.1.trans (by decide), h.2.1.trans (by decide), h.2.2.1.trans (by decide),
    h.2.2.2.2.1.trans (by decide), h.2.2.2.2.2.1.trans (by decide)⟩

/-! ## The identifier string, character by character -/

theorem toUpper_hexDigit : ∀ d : Fin 16,
    Char.toUpper (hexDigit d.val) = upperHexDigit d.val := by
  decide

theorem upperHexDigit_mem : ∀ d : Fin 16, upperHexDigit d.val ∈ hexChars := by
  decide

theorem byteHex_eq (b : Byte) :
    byteHex b = [upperHexDigit (b.val / 16), upperHexDigit (b.val % 16)] := by
  unfold byteHex
  rw [toUpper_hexDigit ⟨b.val / 16, by omega⟩, toUpper_hexDigit ⟨b.val % 16, by omega⟩]

theorem validRead_pendingUID (s : ReaderState) (now : Nat) (uid : UidBuf) :
    (validRead s now uid).1.pendingUID = formatUID uid := by
  unfold validRead
  by_cases hpe : formatUID uid = s.pendingUID
  · by_cases hlt : wrapInt32 (s.consecutiveReads + 1) < REQUIRED_CONSECUTIVE_READS
    · simp [hpe.symm, hlt]
    · by_cases hl : formatUID uid = s.lastUID
      · by_cases hp : s.tagPresent = true
        · simp [hpe.symm, hlt, hl.symm, hp, tagRemoval, sub32_self, TAG_TIMEOUT]
        · simp [hpe.symm, hlt, hl.symm, hp, tagRemoval, sub32_self, TAG_TIMEOUT]
      · simp [hpe.symm, hlt, hl, tagRemoval, sub32_self, TAG_TIMEOUT]
  · simp [hpe, REQUIRED_CONSECUTIVE_READS]

/-- C22. For every 8-byte UID (valid or not) the identifier string that `processNFCReader`
builds, and stores in `pendingUID` on a scan tick with a valid read, has length exactly 16,
consists only of the characters `0`-`9` and `A`-`F`, and for each `k` in `0..7` its
characters at the positions `2k` and `2k+1` are the high and the low hexadecimal digit of
`uid[7-k]` (most significant byte first, zero-padded); two UIDs give equal strings if and
only if they are equal byte for byte. -/
theorem identifier_is_sixteen_hex_digits (uid : UidBuf) :
    (formatUID uid).length = 16 ∧
    (∀ c ∈ (formatUID uid).data, c ∈ hexChars) ∧
    (∀ k : Fin 8,
      (formatUID uid).data[2 * k.val]?
        = some (upperHexDigit ((uid ⟨7 - k.val, by omega⟩).val / 16)) ∧
      (formatUID uid).data[2 * k.val + 1]?
        = some (upperHexDigit ((uid ⟨7 - k.val, by omega⟩).val % 16))) ∧
    (∀ uid2 : UidBuf, formatUID uid = formatUID uid2 ↔ uid = uid2) ∧
    (∀ (s : ReaderState) (now : Nat), isScanTick s now → invalidUID uid = false →
      (processNFCReader s now (okRead uid)).1.pendingUID = formatUID uid) := by
  have hd := formatUID_data uid
  simp only [byteHex_eq, List.cons_append, List.nil_append] at hd
  refine ⟨formatUID_length uid, ?_, ?_, ?_, ?_⟩
  · intro c hc
    rw [hd] at hc
    simp only [List.mem_cons, List.mem_singleton, List.not_mem_nil, or_false] at hc
    have hi : ∀ b : Byte, upperHexDigit (b.val / 16) ∈ hexChars :=
      fun b => upperHexDigit_mem ⟨b.val / 16, by omega⟩
    have lo : ∀ b : Byte, upperHexDigit (b.val % 16) ∈ hexChars :=
      fun b => upperHexDigit_mem ⟨b.val % 16, by omega⟩
    rcases hc with h | h | h | h | h | h | h | h | h | h | h | h | h | h | h | h <;>
      rw [h] <;> first | exact hi _ | exact lo _
  · intro k
    rw [hd]
    fin_cases k <;> exact ⟨rfl, rfl⟩
  · intro uid2
    exact ⟨formatUID_injective uid uid2, fun h => by rw [h]⟩
  · intro s now hs hv
    rw [processNFCReader_of_isScanTick s now _ hs]
    simp only [scanTick, okRead, hv, if_true, Bool.false_eq_true, if_false]
    exact validRead_pendingUID _ now uid

/-- The instance of C22 with the bytes of the tag `ABCD1234ABCD1234`: its first two
characters are the digits of `uid[7] = 0xAB`, and a first read stores the string in
`pendingUID`. -/
theorem identifier_is_sixteen_hex_digits_witness :
    ((formatUID uidABCD).data[0]? = some 'A' ∧ (formatUID uidABCD).data[1]? = some 'B') ∧
    (processNFCReader readyState 250 (okRead uidABCD)).1.pendingUID = formatUID uidABCD :=
  ⟨(identifier_is_sixteen_hex_digits uidABCD).2.2.1 0,
    (identifier_is_sixteen_hex_digits uidABCD).2.2.2.2 readyState 250 (by decide)
      (by decide)⟩

/-! ## The presence flag and `lastUID` in the reachable states -/

theorem processNFCReader_presenceInv (s : ReaderState) (now : Nat) (inv : Inventory)
    (h : PresenceInv s) : PresenceInv (processNFCReader s now inv).1 := by
  rcases processNFCReader_cases s now inv with hc | hc | hc
  · obtain ⟨-, p, l, -⟩ := hc
    unfold PresenceInv
    rw [p, l]
    exact h
  · obtain ⟨-, -, hv, -, p, l, -⟩ := hc
    exact Or.inl ⟨p, inv.uid, hv, l⟩
  · obtain ⟨-, -, -, -, -, p, l⟩ := hc
    exact Or.inr ⟨p, l⟩

theorem initNFCReader_presence (s : ReaderState) (productVersion : Fin 2 → Byte)
    (setupRF : Bool) :
    (initNFCReader s productVersion setupRF).1.tagPresent = s.tagPresent ∧
    (initNFCReader s productVersion setupRF).1.lastUID = s.lastUID := by
  unfold initNFCReader
  simp only
  split
  · exact ⟨rfl, rfl⟩
  · split <;> exact ⟨rfl, rfl⟩

theorem applyReaderOp_presenceInv (s : ReaderState) (op : ReaderOp) (h : PresenceInv s) :
    PresenceInv (applyReaderOp s op) := by
  cases op with
  | initNFCReader productVersion setupRF =>
    obtain ⟨p, l⟩ := initNFCReader_presence s productVersion setupRF
    unfold PresenceInv applyReaderOp
    rw [p, l]
    exact h
  | setTagCallback => exact h
  | processNFCReader now inv => exact processNFCReader_presenceInv s now inv h

theorem runReaderOps_presenceInv (ops : List ReaderOp) (s : ReaderState)
    (h : PresenceInv s) : PresenceInv (runReaderOps s ops) := by
  induction ops generalizing s with
  | nil => exact h
  | cons op ops ih => exact ih (applyReaderOp s op) (applyReaderOp_presenceInv s op h)

/-- C23. In every state reached from the initial state by any sequence of calls of
`initNFCReader`, `setTagCallback` and `processNFCReader` (any times, any read results),
`tagPresent` is true if and only if `lastUID` is a 16-character identifier, and if and only
if `lastUID` is not empty: when a tag is present `lastUID` is the identifier of a valid UID,
otherwise it is the empty string. Consequently no call of `processNFCReader` from such a
state takes the branch "same tag returning after timeout" (`uidStr == lastUID` while
`tagPresent` is false). -/
theorem presence_flag_matches_identifier (ops : List ReaderOp) :
    ((runReaderOps initialState ops).tagPresent = true ↔
      (runReaderOps initialState ops).lastUID.length = 16) ∧
    ((runReaderOps initialState ops).tagPresent = true ↔
      (runReaderOps initialState ops).lastUID ≠ "") ∧
    ((runReaderOps initialState ops).tagPresent = true →
      ∃ uid, invalidUID uid = false ∧
        (runReaderOps initialState ops).lastUID = formatUID uid) ∧
    ((runReaderOps initialState ops).tagPresent = false →
      (runReaderOps initialState ops).lastUID = "") ∧
    (∀ (now : Nat) (inv : Inventory),
      ¬ takesReturnBranch (runReaderOps initialState ops) now inv) := by
  have h := runReaderOps_presenceInv ops initialState (Or.inr ⟨rfl, rfl⟩)
  generalize runReaderOps initialState ops = s at h
  rcases h with ⟨p, uid, hv, l⟩ | ⟨p, l⟩
  · refine ⟨?_, ?_, ?_, ?_, ?_⟩
    · rw [l, formatUID_length]; simp [p]
    · rw [l]; simp [p, formatUID_ne_empty]
    · intro _; exact ⟨uid, hv, l⟩
    · intro hf; rw [p] at hf; exact absurd hf (by decide)
    · rintro now inv ⟨-, -, -, -, -, hf⟩
      rw [p] at hf; exact absurd hf (by decide)
  · refine ⟨?_, ?_, ?_, ?_, ?_⟩
    · rw [l, p]; decide
    · rw [l, p]; simp
    · intro ht; rw [p] at ht; exact absurd ht (by decide)
    · intro _; exact l
    · rintro now inv ⟨-, -, -, -, he, -⟩
      rw [l] at he
      exact formatUID_ne_empty inv.uid he

/-- Instances of C23: after two reads of `ABCD1234ABCD1234` the tag is present and
`lastUID` has 16 characters; five silent ticks later it is absent and `lastUID` is
empty. -/
theorem presence_flag_matches_identifier_witness :
    (runReaderOps initialState
      [ReaderOp.initNFCReader ![0x00, 0x04] true, ReaderOp.setTagCallback,
        ReaderOp.processNFCReader 250 (okRead uidABCD),
        ReaderOp.processNFCReader 500 (okRead uidABCD)]).lastUID.length = 16 ∧
    (runReaderOps initialState
      [ReaderOp.initNFCReader ![0x00, 0x04] true, ReaderOp.setTagCallback,
        ReaderOp.processNFCReader 250 (okRead uidABCD),
        ReaderOp.processNFCReader 500 (okRead uidABCD),
        ReaderOp.processNFCReader 750 noTag, ReaderOp.processNFCReader 1000 noTag,
        ReaderOp.processNFCReader 1250 noTag, ReaderOp.processNFCReader 1500 noTag,
        ReaderOp.processNFCReader 1750 noTag]).lastUID = "" :=
  ⟨(presence_flag_matches_identifier
      [ReaderOp.initNFCReader ![0x00, 0x04] true, ReaderOp.setTagCallback,
        ReaderOp.processNFCReader 250 (okRead uidABCD),
        ReaderOp.processNFCReader 500 (okRead uidABCD)]).1.mp (by decide),
    (presence_flag_matches_identifier
      [ReaderOp.initNFCReader ![0x00, 0x04] true, ReaderOp.setTagCallback,
        ReaderOp.processNFCReader 250 (okRead uidABCD),
        ReaderOp.processNFCReader 500 (okRead uidABCD),
        ReaderOp.processNFCReader 750 noTag, ReaderOp.processNFCReader 1000 noTag,
        ReaderOp.processNFCReader 1250 noTag, ReaderOp.processNFCReader 1500 noTag,
        ReaderOp.processNFCReader 1750 noTag]).2.2.2.1 (by decide)⟩

end RFIDTagScanner
